import Mathlib

/-!
# Verification of the GNSS receiver core (`gnss_core.c`)

A shallow embedding of the byte-oriented GNSS protocol engine of
`src/libraries/GNSS/src/utility/gnss_core.c`: the lexical framing state
machine for NMEA sentences and u-blox binary frames, the NMEA numeric
parsers, the per-sentence and per-binary-message processors, the fix
correlator that publishes location and satellite snapshots through host
callbacks, and the configuration driver reachable from the receive path.

Machine integers are embedded as `Nat` (or `Int` for signed values) with
explicit reduction modulo `2^8`, `2^16` or `2^32` wherever the C code can
overflow.  NUL-terminated field buffers are embedded as `List Nat` of the
bytes before the terminator (the framing layer never stores a NUL byte in
a field, so the end of the list is exactly the position of the
terminator).  Host-visible actions (callbacks, serial sends, timer
operations) and every store into the 96-byte `rx_data` staging buffer are
recorded as an explicit event trace.
-/

namespace GnssCore

/-! ## Constants from `gnss_core.c` -/

def NMEA_SENTENCE_MASK_GPGGA : Nat := 0x00000001
def NMEA_SENTENCE_MASK_GPGSA : Nat := 0x00000002
def NMEA_SENTENCE_MASK_GPGST : Nat := 0x00000004
def NMEA_SENTENCE_MASK_GPGSV : Nat := 0x00000008
def NMEA_SENTENCE_MASK_GPRMC : Nat := 0x00000010
def NMEA_SENTENCE_MASK_GLGSA : Nat := 0x00000020
def NMEA_SENTENCE_MASK_GLGSV : Nat := 0x00000040
def NMEA_SENTENCE_MASK_SOLUTION : Nat := 0x00008000

def NMEA_FIELD_SEQUENCE_START : Nat := 0
def NMEA_FIELD_SEQUENCE_SKIP : Nat := 1
def NMEA_FIELD_SEQUENCE_GGA_TIME : Nat := 2
def NMEA_FIELD_SEQUENCE_GGA_LATITUDE : Nat := 3
def NMEA_FIELD_SEQUENCE_GGA_LATITUDE_NS : Nat := 4
def NMEA_FIELD_SEQUENCE_GGA_LONGITUDE : Nat := 5
def NMEA_FIELD_SEQUENCE_GGA_LONGITUDE_EW : Nat := 6
def NMEA_FIELD_SEQUENCE_GGA_QUALITY : Nat := 7
def NMEA_FIELD_SEQUENCE_GGA_NUMSV : Nat := 8
def NMEA_FIELD_SEQUENCE_GGA_HDOP : Nat := 9
def NMEA_FIELD_SEQUENCE_GGA_ALTITUDE : Nat := 10
def NMEA_FIELD_SEQUENCE_GGA_ALTITUDE_UNIT : Nat := 11
def NMEA_FIELD_SEQUENCE_GGA_SEPARATION : Nat := 12
def NMEA_FIELD_SEQUENCE_GGA_SEPARATION_UNIT : Nat := 13
def NMEA_FIELD_SEQUENCE_GGA_DIFFERENTIAL_AGE : Nat := 14
def NMEA_FIELD_SEQUENCE_GGA_DIFFERENTIAL_STATION : Nat := 15
def NMEA_FIELD_SEQUENCE_GSA_OPERATION : Nat := 16
def NMEA_FIELD_SEQUENCE_GSA_NAVIGATION : Nat := 17
def NMEA_FIELD_SEQUENCE_GSA_SV_USED_PRN_1 : Nat := 18
def NMEA_FIELD_SEQUENCE_GSA_SV_USED_PRN_12 : Nat := 29
def NMEA_FIELD_SEQUENCE_GSA_PDOP : Nat := 30
def NMEA_FIELD_SEQUENCE_GSA_HDOP : Nat := 31
def NMEA_FIELD_SEQUENCE_GSA_VDOP : Nat := 32
def NMEA_FIELD_SEQUENCE_GST_TIME : Nat := 33
def NMEA_FIELD_SEQUENCE_GST_RANGE : Nat := 34
def NMEA_FIELD_SEQUENCE_GST_STDDEV_MAJOR : Nat := 35
def NMEA_FIELD_SEQUENCE_GST_STDDEV_MINOR : Nat := 36
def NMEA_FIELD_SEQUENCE_GST_ORIENTATION : Nat := 37
def NMEA_FIELD_SEQUENCE_GST_STDDEV_LATITUDE : Nat := 38
def NMEA_FIELD_SEQUENCE_GST_STDDEV_LONGITUDE : Nat := 39
def NMEA_FIELD_SEQUENCE_GST_STDDEV_ALTITUDE : Nat := 40
def NMEA_FIELD_SEQUENCE_GSV_SENTENCES : Nat := 41
def NMEA_FIELD_SEQUENCE_GSV_CURRENT : Nat := 42
def NMEA_FIELD_SEQUENCE_GSV_SV_IN_VIEW_COUNT : Nat := 43
def NMEA_FIELD_SEQUENCE_GSV_SV_IN_VIEW_ID : Nat := 44
def NMEA_FIELD_SEQUENCE_GSV_SV_IN_VIEW_ELEV : Nat := 45
def NMEA_FIELD_SEQUENCE_GSV_SV_IN_VIEW_AZIM : Nat := 46
def NMEA_FIELD_SEQUENCE_GSV_SV_IN_VIEW_SNR : Nat := 47
def NMEA_FIELD_SEQUENCE_RMC_TIME : Nat := 48
def NMEA_FIELD_SEQUENCE_RMC_STATUS : Nat := 49
def NMEA_FIELD_SEQUENCE_RMC_LATITUDE : Nat := 50
def NMEA_FIELD_SEQUENCE_RMC_LATITUDE_NS : Nat := 51
def NMEA_FIELD_SEQUENCE_RMC_LONGITUDE : Nat := 52
def NMEA_FIELD_SEQUENCE_RMC_LONGITUDE_EW : Nat := 53
def NMEA_FIELD_SEQUENCE_RMC_SPEED : Nat := 54
def NMEA_FIELD_SEQUENCE_RMC_COURSE : Nat := 55
def NMEA_FIELD_SEQUENCE_RMC_DATE : Nat := 56
def NMEA_FIELD_SEQUENCE_RMC_VARIATION : Nat := 57
def NMEA_FIELD_SEQUENCE_RMC_VARIATION_UNIT : Nat := 58
def NMEA_FIELD_SEQUENCE_RMC_MODE : Nat := 59
def NMEA_FIELD_SEQUENCE_GGA_END : Nat := 60
def NMEA_FIELD_SEQUENCE_GSA_END : Nat := 61
def NMEA_FIELD_SEQUENCE_GST_END : Nat := 62
def NMEA_FIELD_SEQUENCE_GSV_END : Nat := 63
def NMEA_FIELD_SEQUENCE_RMC_END : Nat := 64
def NMEA_FIELD_SEQUENCE_PMTK001_COMMAND : Nat := 65
def NMEA_FIELD_SEQUENCE_PMTK001_STATUS : Nat := 66
def NMEA_FIELD_SEQUENCE_PMTK001_END : Nat := 67

def NMEA_FIELD_MASK_TIME : Nat := 0x0001
def NMEA_FIELD_MASK_POSITION : Nat := 0x0002
def NMEA_FIELD_MASK_ALTITUDE : Nat := 0x0004
def NMEA_FIELD_MASK_SPEED : Nat := 0x0008
def NMEA_FIELD_MASK_COURSE : Nat := 0x0010
def NMEA_FIELD_MASK_EHPE : Nat := 0x0020
def NMEA_FIELD_MASK_EVPE : Nat := 0x0040
def NMEA_FIELD_MASK_PDOP : Nat := 0x0080
def NMEA_FIELD_MASK_HDOP : Nat := 0x0100
def NMEA_FIELD_MASK_VDOP : Nat := 0x0200

def NMEA_OPERATION_MANUAL : Nat := 0
def NMEA_OPERATION_AUTOMATIC : Nat := 1
def NMEA_NAVIGATION_NONE : Nat := 0
def NMEA_NAVIGATION_2D : Nat := 1
def NMEA_NAVIGATION_3D : Nat := 2
def NMEA_STATUS_RECEIVER_WARNING : Nat := 0
def NMEA_STATUS_DATA_VALID : Nat := 1

def UBX_MESSAGE_MASK_NAV_DOP : Nat := 0x00010000
def UBX_MESSAGE_MASK_NAV_PVT : Nat := 0x00040000
def UBX_MESSAGE_MASK_NAV_SVINFO : Nat := 0x00100000
def UBX_MESSAGE_MASK_NAV_TIMEGPS : Nat := 0x00200000
def UBX_MESSAGE_MASK_SOLUTION : Nat := 0x00008000

def GNSS_STATE_START : Nat := 0
def GNSS_STATE_NMEA_PAYLOAD : Nat := 1
def GNSS_STATE_NMEA_CHECKSUM_1 : Nat := 2
def GNSS_STATE_NMEA_CHECKSUM_2 : Nat := 3
def GNSS_STATE_NMEA_END_CR : Nat := 4
def GNSS_STATE_NMEA_END_LF : Nat := 5
def GNSS_STATE_UBX_SYNC_2 : Nat := 6
def GNSS_STATE_UBX_MESSAGE_1 : Nat := 7
def GNSS_STATE_UBX_MESSAGE_2 : Nat := 8
def GNSS_STATE_UBX_LENGTH_1 : Nat := 9
def GNSS_STATE_UBX_LENGTH_2 : Nat := 10
def GNSS_STATE_UBX_PAYLOAD : Nat := 11
def GNSS_STATE_UBX_CK_A : Nat := 12
def GNSS_STATE_UBX_CK_B : Nat := 13

def GNSS_INIT_DONE : Nat := 0
def GNSS_INIT_MTK_BAUD_RATE : Nat := 1
def GNSS_INIT_MTK_INIT_TABLE : Nat := 2
def GNSS_INIT_UBX_BAUD_RATE : Nat := 3
def GNSS_INIT_UBX_INIT_TABLE : Nat := 4

def GNSS_RESPONSE_NONE : Nat := 0
def GNSS_RESPONSE_ACK : Nat := 1
def GNSS_RESPONSE_NACK : Nat := 2
def GNSS_RESPONSE_NMEA_SENTENCE : Nat := 4
def GNSS_RESPONSE_UBX_MESSAGE : Nat := 5

def GNSS_RX_DATA_SIZE : Nat := 96

/-- Modelled from the spec: the satellite table is a "bounded ordered list of
satellite entries (cap 32)"; the constant itself lives in `gnss_api.h`, which
is not part of the sources under verification. -/
def GNSS_SATELLITES_COUNT_MAX : Nat := 32

/-- Modelled from the spec: satellite state flag set
`Searching, Tracking, Navigating, Correction` (values live in `gnss_api.h`);
embedded as distinct single-bit flags, which is what the core's
`state |= ...` / `state & ...` usage requires. -/
def GNSS_SATELLITES_STATE_SEARCHING : Nat := 0x01

def GNSS_SATELLITES_STATE_TRACKING : Nat := 0x02

def GNSS_SATELLITES_STATE_NAVIGATING : Nat := 0x04

def GNSS_SATELLITES_STATE_CORRECTION : Nat := 0x08

/-- Modelled from the spec: fix type `None, Time-only, 2D, 3D` (values live in
`gnss_api.h`); `None` must be 0 because the core resets `location.type = 0`. -/
def GNSS_LOCATION_TYPE_NONE : Nat := 0

def GNSS_LOCATION_TYPE_TIME : Nat := 1

def GNSS_LOCATION_TYPE_2D : Nat := 2

def GNSS_LOCATION_TYPE_3D : Nat := 3

/-- Modelled from the spec: fix quality
`None, Estimated, Autonomous, Differential, Precise, RTK-float, RTK-fixed`
(values live in `gnss_api.h`). -/
def GNSS_LOCATION_QUALITY_NONE : Nat := 0

def GNSS_LOCATION_QUALITY_ESTIMATED : Nat := 1

def GNSS_LOCATION_QUALITY_AUTONOMOUS : Nat := 2

def GNSS_LOCATION_QUALITY_DIFFERENTIAL : Nat := 3

def GNSS_LOCATION_QUALITY_PRECISE : Nat := 4

def GNSS_LOCATION_QUALITY_RTK_FLOAT : Nat := 5

def GNSS_LOCATION_QUALITY_RTK_FIXED : Nat := 6

/-- Modelled from the spec: the location validity bitmask has one bit per
field (`TIME, POSITION, ALTITUDE, SPEED, COURSE, CLIMB, EHPE, EVPE, PDOP,
HDOP, VDOP, CORRECTION`); the values live in `gnss_api.h`, only their
distinctness as single bits is used by the core. -/
def GNSS_LOCATION_MASK_TIME : Nat := 0x0001

def GNSS_LOCATION_MASK_POSITION : Nat := 0x0002

def GNSS_LOCATION_MASK_ALTITUDE : Nat := 0x0004

def GNSS_LOCATION_MASK_SPEED : Nat := 0x0008

def GNSS_LOCATION_MASK_COURSE : Nat := 0x0010

def GNSS_LOCATION_MASK_CLIMB : Nat := 0x0020

def GNSS_LOCATION_MASK_EHPE : Nat := 0x0040

def GNSS_LOCATION_MASK_EVPE : Nat := 0x0080

def GNSS_LOCATION_MASK_PDOP : Nat := 0x0100

def GNSS_LOCATION_MASK_HDOP : Nat := 0x0200

def GNSS_LOCATION_MASK_VDOP : Nat := 0x0400

def GNSS_LOCATION_MASK_CORRECTION : Nat := 0x0800

/-- Clearing bits of a 32-bit mask: `s & ~m` on `uint32_t`. -/
def clear32 (s m : Nat) : Nat := s &&& (0xFFFFFFFF ^^^ m)

/-- Clearing bits of a 16-bit mask: `s & ~m` on `uint16_t`. -/
def clear16 (s m : Nat) : Nat := s &&& (0xFFFF ^^^ m)

/-! ## Data model -/

/-- `utc_time_t`. -/
structure UtcTime where
  year : Nat
  month : Nat
  day : Nat
  hour : Nat
  minute : Nat
  second : Nat
  millis : Nat
  deriving Repr, DecidableEq

/-- `gnss_location_t` (field widths as used by the core; signed fields are
`Int`, unsigned ones `Nat`). -/
structure GnssLocation where
  time : UtcTime
  mask : Nat
  correction : Int
  latitude : Int
  longitude : Int
  altitude : Int
  separation : Int
  speed : Int
  course : Int
  climb : Int
  ehpe : Nat
  evpe : Nat
  pdop : Nat
  hdop : Nat
  vdop : Nat
  quality : Nat
  numsv : Nat
  type : Nat
  deriving Repr, DecidableEq

/-- One satellite entry of `gnss_satellites_t`. -/
structure SatInfo where
  prn : Nat
  state : Nat
  snr : Nat
  elevation : Nat
  azimuth : Int
  deriving Repr, DecidableEq

def satInfoZero : SatInfo := ⟨0, 0, 0, 0, 0⟩

/-- `nmea_context_t`.  The `prefix` field of the source is named `talker`
here. -/
structure NmeaContext where
  talker : Nat
  sequence : Nat
  mask : Nat
  navigation : Nat
  status : Nat
  sv_in_view_sentences : Nat
  sv_in_view_count : Nat
  sv_in_view_index : Nat
  sv_used_count : Nat
  sv_used_mask0 : Nat
  sv_used_mask1 : Nat
  sv_used_mask2 : Nat
  mtk_command : Nat
  mtk_status : Nat
  deriving Repr, DecidableEq

/-- `ubx_context_t` (without the RTC timer handle, whose start/stop calls are
recorded as events). -/
structure UbxContext where
  ck_a : Nat
  ck_b : Nat
  message : Nat
  length : Nat
  week : Nat
  tow : Nat
  itow : Nat
  deriving Repr, DecidableEq

/-- Receiver protocol mode (`GNSS_MODE_NMEA / GNSS_MODE_MEDIATEK /
GNSS_MODE_UBLOX`, values in `gnss_api.h`; only compared for equality). -/
inductive GnssMode where
  | nmea
  | mediatek
  | ublox
  deriving Repr, DecidableEq

/-- Host-visible actions of the core, in order of occurrence.  `storeRx i v`
records that the core stored byte `v` at index `i` of the 96-byte `rx_data`
staging buffer (the C code performs the store whether or not `i < 96`; the
embedding keeps the buffer intact for out-of-range stores and records the
attempted index).  `endSentence` / `endMessage` mark the invocations of the
frame-level finalizers `nmea_end_sentence` / `ubx_end_message`. -/
inductive Event where
  | locationCb (loc : GnssLocation)
  | satellitesCb (count : Nat) (sats : List SatInfo)
  | send (data : List Nat)
  | timerStart
  | timerStop
  | storeRx (i : Nat) (v : Nat)
  | endSentence
  | endMessage (message : Nat)
  deriving Repr, DecidableEq

/-- `gnss_device_t` (the `tx_data`/`tx_table` staging used only by
`gnss_set_periodic`, and the host callback pointers, are not part of the
receive-path state; command tables are embedded by value). -/
structure Device where
  mode : GnssMode
  state : Nat
  busy : Nat
  init : Nat
  seen : Nat
  expected : Nat
  checksum : Nat
  rx_count : Nat
  rx_offset : Nat
  rx_chunk : Nat
  table : Option (List (List Nat))
  rx_data : List Nat
  nmea : NmeaContext
  ubx : UbxContext
  location : GnssLocation
  satCount : Nat
  satInfo : List SatInfo
  command : Nat
  deriving Repr, DecidableEq

/-! ## Numeric parsers (§4.A) -/

def utc_days_since_month : List (List Nat) :=
  [[0, 31, 59, 90, 120, 151, 181, 212, 243, 273, 304, 334],
   [0, 31, 60, 91, 121, 152, 182, 213, 244, 274, 305, 335]]

def days_since_month (leap : Bool) (month : Nat) : Nat :=
  (utc_days_since_month.getD (if leap then 1 else 0) []).getD (month - 1) 0

/-- `utc_offset_time`: GPS-UTC offset from week/tow versus a UTC time. -/
def utc_offset_time (t : UtcTime) (week tow : Nat) : Int :=
  ((week : Int) * 604800 + ((tow + 500) / 1000 : Nat)) -
    (((((((t.year : Int) * 365 + (1 + ((t.year : Int) - 1) / 4)) +
        (days_since_month (t.year % 4 == 0) t.month : Nat) +
        ((t.day : Int) - 1)) -
        (6 - 1) * 24) +
        t.hour) * 60 +
        t.minute) * 60 +
        t.second)

def nmea_hex_ascii : List Nat :=
  [48, 49, 50, 51, 52, 53, 54, 55, 56, 57, 65, 66, 67, 68, 69, 70]

/-- One iteration step of the bit-by-bit integer square root of
`nmea_isqrt`; the fuel argument is 16 at the top call (the shift register
`c` starts at `0x8000` and halves once per iteration). -/
def nmea_isqrt_loop (n : Nat) : Nat → Nat → Nat → Nat
  | g, _, 0 => g
  | g, c, fuel + 1 =>
    let g := if g * g > n then g ^^^ c else g
    let c := c >>> 1
    if c = 0 then g else nmea_isqrt_loop n (g ||| c) c fuel

/-- `nmea_isqrt` on a 32-bit input. -/
def nmea_isqrt (n : Nat) : Nat := nmea_isqrt_loop n 0x8000 0x8000 16

def nmea_scale : List Nat :=
  [1, 10, 100, 1000, 10000, 100000, 1000000, 10000000, 100000000, 1000000000]

/-- `nmea_same_time`. -/
def nmea_same_time (t0 t1 : UtcTime) : Bool :=
  t0.hour == t1.hour && t0.minute == t1.minute &&
    t0.second == t1.second && t0.millis == t1.millis

def isDigit (c : Nat) : Bool := 48 ≤ c && c ≤ 57

/-- Helper for the digit-accumulation loops of the parsers: consumes leading
decimal digits, accumulating `acc * 10 + digit` in 32-bit arithmetic, and
returns the accumulator together with the rest of the field. -/
def scanDigits : List Nat → Nat → Nat × List Nat
  | [], acc => (acc, [])
  | c :: rest, acc =>
    if isDigit c then scanDigits rest ((acc * 10 + (c - 48)) % 4294967296)
    else (acc, c :: rest)

/-- The fraction loop shared by `nmea_parse_time` (bound 3) and
`nmea_parse_fixed` (bound `scale`): consumes all leading digits but
accumulates only the first `bound - digits` of them; returns the
accumulator, the number of digits accumulated and the rest. -/
def scanFraction : List Nat → Nat → Nat → Nat → Nat × Nat × List Nat
  | [], acc, digits, _ => (acc, digits, [])
  | c :: rest, acc, digits, bound =>
    if isDigit c then
      if digits < bound then
        scanFraction rest ((acc * 10 + (c - 48)) % 4294967296) (digits + 1) bound
      else
        scanFraction rest acc digits bound
    else (acc, digits, c :: rest)

/-- `nmea_parse_time` on the bytes of a field (list ends at the NUL
terminator). -/
def nmea_parse_time (data : List Nat) : Option (Nat × Nat × Nat × Nat) :=
  match data with
  | c0 :: c1 :: rest =>
    if isDigit c0 && isDigit c1 then
      let hour := (c0 - 48) * 10 + (c1 - 48)
      match rest with
      | c2 :: c3 :: rest =>
        if hour < 24 && isDigit c2 && isDigit c3 then
          let minute := (c2 - 48) * 10 + (c3 - 48)
          match rest with
          | c4 :: c5 :: rest =>
            if minute < 60 && isDigit c4 && isDigit c5 then
              let second := (c4 - 48) * 10 + (c5 - 48)
              if second ≤ 60 then
                match rest with
                | [] => some (hour, minute, second, 0)
                | 46 :: rest =>
                  let (millis, digits, rest) := scanFraction rest 0 0 3
                  match rest with
                  | [] =>
                    let millis := if digits < 3 then
                      (millis * nmea_scale.getD (3 - digits) 0) % 4294967296
                    else millis
                    some (hour, minute, second, millis)
                  | _ => none
                | _ => none
              else none
            else none
          | _ => none
        else none
      | _ => none
    else none
  | _ => none

/-- `nmea_parse_unsigned`. -/
def nmea_parse_unsigned (data : List Nat) : Option Nat :=
  let (integer, rest) := scanDigits data 0
  match rest with
  | [] => some integer
  | _ => none

/-- `nmea_parse_fixed`. -/
def nmea_parse_fixed (data : List Nat) (scale : Nat) : Option Nat :=
  let (integer, rest) := scanDigits data 0
  match rest with
  | [] => some ((integer * nmea_scale.getD scale 0) % 4294967296)
  | 46 :: rest =>
    let (fraction, digits, rest) := scanFraction rest 0 0 scale
    match rest with
    | [] =>
      let fraction := if digits < scale then
        (fraction * nmea_scale.getD (scale - digits) 0) % 4294967296
      else fraction
      some ((integer * nmea_scale.getD scale 0 + fraction) % 4294967296)
    | _ => none
  | _ => none

/-- `nmea_parse_latitude`. -/
def nmea_parse_latitude (data : List Nat) : Option Nat :=
  match data with
  | c0 :: c1 :: rest =>
    if isDigit c0 = true ∧ isDigit c1 = true then
      let degrees := (c0 - 48) * 10 + (c1 - 48)
      if degrees < 90 ∧ rest ≠ [] then
        match nmea_parse_fixed rest 7 with
        | some minutes =>
          if minutes < 600000000 then
            some ((degrees * 10000000 + (minutes + 30) / 60) % 4294967296)
          else none
        | none => none
      else none
    else none
  | _ => none

/-- `nmea_parse_longitude`. -/
def nmea_parse_longitude (data : List Nat) : Option Nat :=
  match data with
  | c0 :: c1 :: c2 :: rest =>
    if isDigit c0 = true ∧ isDigit c1 = true ∧ isDigit c2 = true then
      let degrees := (c0 - 48) * 100 + (c1 - 48) * 10 + (c2 - 48)
      if degrees < 180 ∧ rest ≠ [] then
        match nmea_parse_fixed rest 7 with
        | some minutes =>
          if minutes < 600000000 then
            some ((degrees * 10000000 + (minutes + 30) / 60) % 4294967296)
          else none
        | none => none
      else none
    else none
  | _ => none

/-- Bytes of an ASCII string (used for protocol literals and test vectors). -/
def strBytes (s : String) : List Nat := s.data.map Char.toNat

/-- `a - b` on `uint32_t` (wrap-around subtraction); `b` is assumed already
reduced below `2^32` by its producer. -/
def sub32 (a b : Nat) : Nat := (a + 4294967296 - b % 4294967296) % 4294967296

/-! ## Publishing (`gnss_location`, `gnss_satellites`) -/

/-- `gnss_location`: massage the working location record according to the
fix type and validity mask, deliver it to the host location callback, and
reset `type`/`mask` for the next cycle. -/
def gnss_location_fn (d : Device) : Device × List Event :=
  let loc := d.location
  let loc :=
    if loc.type = GNSS_LOCATION_TYPE_NONE then
      { loc with mask := 0, numsv := 0, quality := GNSS_LOCATION_QUALITY_NONE }
    else if loc.type = GNSS_LOCATION_TYPE_TIME then
      { loc with
          mask := loc.mask &&& (GNSS_LOCATION_MASK_TIME ||| GNSS_LOCATION_MASK_CORRECTION),
          quality := GNSS_LOCATION_QUALITY_NONE }
    else if loc.type = GNSS_LOCATION_TYPE_2D then
      { loc with
          mask := loc.mask &&&
            (GNSS_LOCATION_MASK_TIME ||| GNSS_LOCATION_MASK_CORRECTION |||
             GNSS_LOCATION_MASK_POSITION ||| GNSS_LOCATION_MASK_SPEED |||
             GNSS_LOCATION_MASK_COURSE ||| GNSS_LOCATION_MASK_EHPE |||
             GNSS_LOCATION_MASK_HDOP) }
    else loc
  let loc :=
    if loc.mask &&& GNSS_LOCATION_MASK_TIME ≠ 0 then
      if loc.mask &&& GNSS_LOCATION_MASK_CORRECTION = 0 then
        { loc with correction := 0 }
      else loc
    else
      { loc with time := ⟨0, 1, 6, 0, 0, 0, 0⟩, correction := 0, mask := 0, numsv := 0 }
  let loc := if loc.mask &&& GNSS_LOCATION_MASK_POSITION = 0 then
      { loc with latitude := 0, longitude := 0 } else loc
  let loc := if loc.mask &&& GNSS_LOCATION_MASK_ALTITUDE = 0 then
      { loc with altitude := 0, separation := 0 } else loc
  let loc := if loc.mask &&& GNSS_LOCATION_MASK_SPEED = 0 then
      { loc with speed := 0 } else loc
  let loc := if loc.mask &&& GNSS_LOCATION_MASK_COURSE = 0 then
      { loc with course := 0 } else loc
  let loc := if loc.mask &&& GNSS_LOCATION_MASK_CLIMB = 0 then
      { loc with climb := 0 } else loc
  let loc := if loc.mask &&& GNSS_LOCATION_MASK_EHPE = 0 then
      { loc with ehpe := 0 } else loc
  let loc := if loc.mask &&& GNSS_LOCATION_MASK_EVPE = 0 then
      { loc with evpe := 0 } else loc
  let loc := if loc.mask &&& GNSS_LOCATION_MASK_PDOP = 0 then
      { loc with pdop := 9999 } else loc
  let loc := if loc.mask &&& GNSS_LOCATION_MASK_HDOP = 0 then
      { loc with hdop := 9999 } else loc
  let loc := if loc.mask &&& GNSS_LOCATION_MASK_VDOP = 0 then
      { loc with vdop := 9999 } else loc
  ({ d with location := { loc with type := 0, mask := 0 } }, [Event.locationCb loc])

/-- `gnss_satellites`: clamp the count to the 32-entry cap and deliver the
snapshot to the host satellites callback. -/
def gnss_satellites_fn (d : Device) : Device × List Event :=
  let count := if d.satCount > GNSS_SATELLITES_COUNT_MAX then
    GNSS_SATELLITES_COUNT_MAX else d.satCount
  ({ d with satCount := count }, [Event.satellitesCb count (d.satInfo.take count)])

/-! ## MTK configuration driver (reachable from the receive path) -/

/-- `mtk_send`: record the pending three-digit PMTK command number, set the
busy flag and hand the sentence to the host send routine. -/
def mtk_send (d : Device) (data : List Nat) : Device × List Event :=
  let command : Int :=
    (((data.getD 5 0 : Int) - 48) * 10 + ((data.getD 6 0 : Int) - 48)) * 10 +
      ((data.getD 7 0 : Int) - 48)
  ({ d with command := (command.emod 4294967296).toNat, busy := 1 },
   [Event.send data])

/-- `mtk_configure`: advance the MTK command table (`response`/`command`
arguments of the C function are unused by its body). -/
def mtk_configure (d : Device) : Device × List Event :=
  match d.table with
  | none => (d, [])
  | some entries =>
    if d.init = GNSS_INIT_MTK_BAUD_RATE then
      let d := { d with init := GNSS_INIT_MTK_INIT_TABLE, table := some entries.tail }
      match entries.head? with
      | some data => mtk_send d data
      | none => (d, [])
    else
      match entries with
      | data :: rest => mtk_send { d with table := some rest } data
      | [] =>
        let d := { d with table := none }
        if d.init = GNSS_INIT_MTK_INIT_TABLE then
          ({ d with
              init := GNSS_INIT_DONE, seen := 0,
              expected := NMEA_SENTENCE_MASK_GPGGA ||| NMEA_SENTENCE_MASK_GPGSA |||
                NMEA_SENTENCE_MASK_GPGSV ||| NMEA_SENTENCE_MASK_GPRMC,
              location := { d.location with type := 0, mask := 0 } }, [])
        else (d, [])

/-! ## NMEA sentence processor (§4.C) -/

/-- `nmea_start_sentence`. -/
def nmea_start_sentence (d : Device) : Device :=
  let c := d.nmea
  let c :=
    if c.sequence = NMEA_FIELD_SEQUENCE_GSA_END then
      { c with sv_used_count := 0, sv_used_mask0 := 0, sv_used_mask1 := 0, sv_used_mask2 := 0 }
    else if c.sequence = NMEA_FIELD_SEQUENCE_GSV_END then
      { c with sv_in_view_sentences := 0 }
    else c
  { d with nmea := { c with sequence := NMEA_FIELD_SEQUENCE_START } }

/-- Update the satellite entry under construction (`info[count]`), as the GSV
and SVINFO handlers do, guarded by `count < GNSS_SATELLITES_COUNT_MAX`. -/
def setSatCur (d : Device) (f : SatInfo → SatInfo) : Device :=
  { d with satInfo := d.satInfo.set d.satCount (f (d.satInfo.getD d.satCount satInfoZero)) }

/-- `nmea_parse_sentence`: one completed field (`data` is the field without
its NUL terminator) updates the device according to the current field
sequence. -/
def nmea_parse_sentence (d : Device) (data : List Nat) : Device :=
  let sequence := d.nmea.sequence
  let stepState : Device × Nat :=
    let next := (sequence + 1) % 256
    if sequence = NMEA_FIELD_SEQUENCE_START then
      let next := NMEA_FIELD_SEQUENCE_SKIP
      if data.getD 0 0 = 80 then
        if data = strBytes "PMTK001" then (d, NMEA_FIELD_SEQUENCE_PMTK001_COMMAND)
        else (d, next)
      else if data.getD 0 0 = 71 &&
          (data.getD 1 0 = 80 || data.getD 1 0 = 76 || data.getD 1 0 = 78) then
        let d := { d with nmea := { d.nmea with talker := data.getD 1 0 } }
        if data.drop 2 = strBytes "GSA" then
          if d.seen &&& NMEA_SENTENCE_MASK_GPGGA ≠ 0 then
            ({ d with nmea := { d.nmea with
                mask := NMEA_FIELD_MASK_PDOP ||| NMEA_FIELD_MASK_VDOP } },
             NMEA_FIELD_SEQUENCE_GSA_OPERATION)
          else (d, next)
        else if data.drop 2 = strBytes "GSV" then
          if d.seen &&& (NMEA_SENTENCE_MASK_GPGGA ||| NMEA_SENTENCE_MASK_SOLUTION) ≠ 0 then
            (d, NMEA_FIELD_SEQUENCE_GSV_SENTENCES)
          else (d, next)
        else if data.drop 2 = strBytes "GGA" then
          ({ d with
              seen := clear32 d.seen
                (NMEA_SENTENCE_MASK_GPGGA ||| NMEA_SENTENCE_MASK_GPGSA |||
                 NMEA_SENTENCE_MASK_GPGSV ||| NMEA_SENTENCE_MASK_GLGSA |||
                 NMEA_SENTENCE_MASK_GLGSV ||| NMEA_SENTENCE_MASK_SOLUTION),
              nmea := { d.nmea with
                mask := NMEA_FIELD_MASK_POSITION ||| NMEA_FIELD_MASK_ALTITUDE |||
                  NMEA_FIELD_MASK_HDOP,
                sv_in_view_sentences := 0, sv_used_count := 0,
                sv_used_mask0 := 0, sv_used_mask1 := 0, sv_used_mask2 := 0 },
              satCount := 0 },
           NMEA_FIELD_SEQUENCE_GGA_TIME)
        else if data.drop 2 = strBytes "GST" then
          ({ d with
              seen := clear32 d.seen
                (NMEA_SENTENCE_MASK_GPGST ||| NMEA_SENTENCE_MASK_SOLUTION),
              nmea := { d.nmea with
                mask := NMEA_FIELD_MASK_EHPE ||| NMEA_FIELD_MASK_EVPE } },
           NMEA_FIELD_SEQUENCE_GST_TIME)
        else if data.drop 2 = strBytes "RMC" then
          ({ d with
              seen := clear32 d.seen
                (NMEA_SENTENCE_MASK_GPRMC ||| NMEA_SENTENCE_MASK_SOLUTION),
              nmea := { d.nmea with
                mask := NMEA_FIELD_MASK_TIME ||| NMEA_FIELD_MASK_SPEED |||
                  NMEA_FIELD_MASK_COURSE } },
           NMEA_FIELD_SEQUENCE_RMC_TIME)
        else (d, next)
      else (d, next)
    else if sequence = NMEA_FIELD_SEQUENCE_SKIP then
      (d, NMEA_FIELD_SEQUENCE_SKIP)
    else if sequence = NMEA_FIELD_SEQUENCE_GGA_TIME ∨
        sequence = NMEA_FIELD_SEQUENCE_GST_TIME ∨
        sequence = NMEA_FIELD_SEQUENCE_RMC_TIME then
      if data = [] then
        ({ d with nmea := { d.nmea with mask := clear16 d.nmea.mask NMEA_FIELD_MASK_TIME } },
         next)
      else
        match nmea_parse_time data with
        | some (hour, minute, second, millis) =>
          let d :=
            if d.seen &&& (NMEA_SENTENCE_MASK_GPGGA ||| NMEA_SENTENCE_MASK_GPGST |||
                NMEA_SENTENCE_MASK_GPRMC) ≠ 0 &&
               !(nmea_same_time d.location.time ⟨0, 0, 0, hour, minute, second, millis⟩) then
              { d with
                  seen := 0,
                  location := { d.location with type := 0, mask := 0 } }
            else d
          ({ d with location := { d.location with
              time := { d.location.time with
                hour := hour, minute := minute, second := second, millis := millis } } },
           next)
        | none => (d, NMEA_FIELD_SEQUENCE_SKIP)
    else if sequence = NMEA_FIELD_SEQUENCE_GGA_LATITUDE then
      if data = [] then
        ({ d with nmea := { d.nmea with
            mask := clear16 d.nmea.mask NMEA_FIELD_MASK_POSITION } }, next)
      else
        match nmea_parse_latitude data with
        | some latitude =>
          ({ d with location := { d.location with latitude := latitude } }, next)
        | none => (d, NMEA_FIELD_SEQUENCE_SKIP)
    else if sequence = NMEA_FIELD_SEQUENCE_GGA_LATITUDE_NS then
      if d.nmea.mask &&& NMEA_FIELD_MASK_POSITION ≠ 0 then
        if data.getD 0 0 = 83 then
          ({ d with location := { d.location with latitude := - d.location.latitude } }, next)
        else if data.getD 0 0 ≠ 78 then (d, NMEA_FIELD_SEQUENCE_SKIP)
        else (d, next)
      else (d, next)
    else if sequence = NMEA_FIELD_SEQUENCE_GGA_LONGITUDE then
      if data = [] then
        ({ d with nmea := { d.nmea with
            mask := clear16 d.nmea.mask NMEA_FIELD_MASK_POSITION } }, next)
      else
        match nmea_parse_longitude data with
        | some longitude =>
          ({ d with location := { d.location with longitude := longitude } }, next)
        | none => (d, NMEA_FIELD_SEQUENCE_SKIP)
    else if sequence = NMEA_FIELD_SEQUENCE_GGA_LONGITUDE_EW then
      if d.nmea.mask &&& NMEA_FIELD_MASK_POSITION ≠ 0 then
        if data.getD 0 0 = 87 then
          ({ d with location := { d.location with longitude := - d.location.longitude } }, next)
        else if data.getD 0 0 ≠ 69 then (d, NMEA_FIELD_SEQUENCE_SKIP)
        else (d, next)
      else (d, next)
    else if sequence = NMEA_FIELD_SEQUENCE_GGA_QUALITY then
      match data, nmea_parse_unsigned data with
      | _ :: _, some quality =>
        ({ d with location := { d.location with quality := quality } }, next)
      | _, _ => (d, NMEA_FIELD_SEQUENCE_SKIP)
    else if sequence = NMEA_FIELD_SEQUENCE_GGA_HDOP then
      if data = [] then
        ({ d with nmea := { d.nmea with
            mask := clear16 d.nmea.mask NMEA_FIELD_MASK_HDOP } }, next)
      else
        match nmea_parse_fixed data 2 with
        | some hdop => ({ d with location := { d.location with hdop := hdop } }, next)
        | none => (d, NMEA_FIELD_SEQUENCE_SKIP)
    else if sequence = NMEA_FIELD_SEQUENCE_GGA_ALTITUDE then
      if data = [] then
        ({ d with nmea := { d.nmea with
            mask := clear16 d.nmea.mask NMEA_FIELD_MASK_ALTITUDE } }, next)
      else
        match nmea_parse_fixed (if data.getD 0 0 = 45 then data.tail else data) 3 with
        | some altitude =>
          ({ d with location := { d.location with
              altitude := if data.getD 0 0 = 45 then - (altitude : Int) else altitude } },
           next)
        | none => (d, NMEA_FIELD_SEQUENCE_SKIP)
    else if sequence = NMEA_FIELD_SEQUENCE_GGA_ALTITUDE_UNIT then
      if d.nmea.mask &&& NMEA_FIELD_MASK_ALTITUDE ≠ 0 && data.getD 0 0 ≠ 77 then
        (d, NMEA_FIELD_SEQUENCE_SKIP)
      else (d, next)
    else if sequence = NMEA_FIELD_SEQUENCE_GGA_SEPARATION then
      if data = [] then
        ({ d with nmea := { d.nmea with
            mask := clear16 d.nmea.mask NMEA_FIELD_MASK_ALTITUDE } }, next)
      else
        match nmea_parse_fixed (if data.getD 0 0 = 45 then data.tail else data) 3 with
        | some separation =>
          if d.nmea.mask &&& NMEA_FIELD_MASK_ALTITUDE ≠ 0 then
            ({ d with location := { d.location with
                separation := if data.getD 0 0 = 45 then - (separation : Int) else separation } },
             next)
          else (d, next)
        | none => (d, NMEA_FIELD_SEQUENCE_SKIP)
    else if sequence = NMEA_FIELD_SEQUENCE_GGA_SEPARATION_UNIT then
      if d.nmea.mask &&& NMEA_FIELD_MASK_ALTITUDE ≠ 0 && data.getD 0 0 ≠ 77 then
        (d, NMEA_FIELD_SEQUENCE_SKIP)
      else (d, next)
    else if sequence = NMEA_FIELD_SEQUENCE_GGA_NUMSV ∨
        sequence = NMEA_FIELD_SEQUENCE_GGA_DIFFERENTIAL_AGE ∨
        sequence = NMEA_FIELD_SEQUENCE_GSA_OPERATION ∨
        sequence = NMEA_FIELD_SEQUENCE_GSA_HDOP ∨
        sequence = NMEA_FIELD_SEQUENCE_GST_RANGE ∨
        sequence = NMEA_FIELD_SEQUENCE_GST_STDDEV_MAJOR ∨
        sequence = NMEA_FIELD_SEQUENCE_GST_STDDEV_MINOR ∨
        sequence = NMEA_FIELD_SEQUENCE_GST_ORIENTATION ∨
        sequence = NMEA_FIELD_SEQUENCE_RMC_LATITUDE ∨
        sequence = NMEA_FIELD_SEQUENCE_RMC_LATITUDE_NS ∨
        sequence = NMEA_FIELD_SEQUENCE_RMC_LONGITUDE ∨
        sequence = NMEA_FIELD_SEQUENCE_RMC_LONGITUDE_EW ∨
        sequence = NMEA_FIELD_SEQUENCE_RMC_VARIATION ∨
        sequence = NMEA_FIELD_SEQUENCE_RMC_VARIATION_UNIT then
      (d, next)
    else if sequence = NMEA_FIELD_SEQUENCE_GGA_DIFFERENTIAL_STATION then
      (d, NMEA_FIELD_SEQUENCE_GGA_END)
    else if sequence = NMEA_FIELD_SEQUENCE_GSA_NAVIGATION then
      if data.getD 0 0 = 49 then
        ({ d with nmea := { d.nmea with navigation := NMEA_NAVIGATION_NONE } }, next)
      else if data.getD 0 0 = 50 then
        ({ d with nmea := { d.nmea with navigation := NMEA_NAVIGATION_2D } }, next)
      else if data.getD 0 0 = 51 then
        ({ d with nmea := { d.nmea with navigation := NMEA_NAVIGATION_3D } }, next)
      else (d, NMEA_FIELD_SEQUENCE_SKIP)
    else if NMEA_FIELD_SEQUENCE_GSA_SV_USED_PRN_1 ≤ sequence ∧
        sequence ≤ NMEA_FIELD_SEQUENCE_GSA_SV_USED_PRN_12 then
      match data with
      | [] => (d, next)
      | _ :: _ =>
        match nmea_parse_unsigned data with
        | some svid =>
          if 1 ≤ svid ∧ svid ≤ 96 then
            let bit := 1 <<< ((svid - 1) &&& 31)
            let idx := (svid - 1) >>> 5
            let c := d.nmea
            let c :=
              if idx = 0 then { c with sv_used_mask0 := c.sv_used_mask0 ||| bit }
              else if idx = 1 then { c with sv_used_mask1 := c.sv_used_mask1 ||| bit }
              else { c with sv_used_mask2 := c.sv_used_mask2 ||| bit }
            ({ d with nmea := c }, next)
          else (d, next)
        | none =>
          ({ d with nmea := { d.nmea with
              sv_used_count := 0,
              sv_used_mask0 := 0, sv_used_mask1 := 0, sv_used_mask2 := 0 } },
           NMEA_FIELD_SEQUENCE_SKIP)
    else if sequence = NMEA_FIELD_SEQUENCE_GSA_PDOP then
      if data = [] then
        ({ d with nmea := { d.nmea with
            mask := clear16 d.nmea.mask NMEA_FIELD_MASK_PDOP } }, next)
      else
        match nmea_parse_fixed data 2 with
        | some pdop => ({ d with location := { d.location with pdop := pdop } }, next)
        | none => (d, NMEA_FIELD_SEQUENCE_SKIP)
    else if sequence = NMEA_FIELD_SEQUENCE_GSA_VDOP then
      if data = [] then
        ({ d with nmea := { d.nmea with
            mask := clear16 d.nmea.mask NMEA_FIELD_MASK_VDOP } },
         NMEA_FIELD_SEQUENCE_GSA_END)
      else
        match nmea_parse_fixed data 2 with
        | some vdop =>
          ({ d with location := { d.location with vdop := vdop } },
           NMEA_FIELD_SEQUENCE_GSA_END)
        | none => (d, NMEA_FIELD_SEQUENCE_SKIP)
    else if sequence = NMEA_FIELD_SEQUENCE_GST_STDDEV_LATITUDE then
      if data = [] then
        ({ d with nmea := { d.nmea with
            mask := clear16 d.nmea.mask NMEA_FIELD_MASK_EHPE } }, next)
      else
        match nmea_parse_fixed data 3 with
        | some stddev => ({ d with location := { d.location with ehpe := stddev } }, next)
        | none => (d, NMEA_FIELD_SEQUENCE_SKIP)
    else if sequence = NMEA_FIELD_SEQUENCE_GST_STDDEV_LONGITUDE then
      if data = [] then
        ({ d with nmea := { d.nmea with
            mask := clear16 d.nmea.mask NMEA_FIELD_MASK_EHPE } }, next)
      else
        match nmea_parse_fixed data 3 with
        | some stddev =>
          ({ d with location := { d.location with
              ehpe := nmea_isqrt ((d.location.ehpe * d.location.ehpe + stddev * stddev) %
                4294967296) } },
           next)
        | none => (d, NMEA_FIELD_SEQUENCE_SKIP)
    else if sequence = NMEA_FIELD_SEQUENCE_GST_STDDEV_ALTITUDE then
      if data = [] then
        ({ d with nmea := { d.nmea with
            mask := clear16 d.nmea.mask NMEA_FIELD_MASK_EVPE } },
         NMEA_FIELD_SEQUENCE_GST_END)
      else
        match nmea_parse_fixed data 3 with
        | some stddev =>
          ({ d with location := { d.location with evpe := stddev } },
           NMEA_FIELD_SEQUENCE_GST_END)
        | none => (d, NMEA_FIELD_SEQUENCE_SKIP)
    else if sequence = NMEA_FIELD_SEQUENCE_GSV_SENTENCES then
      match data, nmea_parse_unsigned data with
      | _ :: _, some sentences =>
        if d.nmea.sv_in_view_sentences = 0 then
          ({ d with nmea := { d.nmea with
              sv_in_view_sentences := sentences % 256,
              sv_in_view_count := 0, sv_in_view_index := 0 } }, next)
        else
          if d.nmea.sv_in_view_sentences ≠ sentences then
            ({ d with nmea := { d.nmea with sv_in_view_sentences := 0 } },
             NMEA_FIELD_SEQUENCE_SKIP)
          else (d, next)
      | _, _ => (d, NMEA_FIELD_SEQUENCE_SKIP)
    else if sequence = NMEA_FIELD_SEQUENCE_GSV_CURRENT then
      match data, nmea_parse_unsigned data with
      | _ :: _, some current =>
        if d.nmea.sv_in_view_index ≠ (sub32 current 1 * 4) % 4294967296 then
          ({ d with nmea := { d.nmea with sv_in_view_sentences := 0 } },
           NMEA_FIELD_SEQUENCE_SKIP)
        else (d, next)
      | _, _ =>
        ({ d with nmea := { d.nmea with sv_in_view_sentences := 0 } },
         NMEA_FIELD_SEQUENCE_SKIP)
    else if sequence = NMEA_FIELD_SEQUENCE_GSV_SV_IN_VIEW_COUNT then
      match data, nmea_parse_unsigned data with
      | _ :: _, some count =>
        let d := { d with nmea := { d.nmea with sv_in_view_count := count % 256 } }
        if count = 0 then (d, NMEA_FIELD_SEQUENCE_GSV_END) else (d, next)
      | _, _ =>
        ({ d with nmea := { d.nmea with sv_in_view_sentences := 0 } },
         NMEA_FIELD_SEQUENCE_SKIP)
    else if sequence = NMEA_FIELD_SEQUENCE_GSV_SV_IN_VIEW_ID then
      let stored : Option Nat :=
        match data with
        | [] => some 255
        | _ :: _ => nmea_parse_unsigned data
      match stored with
      | some svid =>
        let d := if d.satCount < GNSS_SATELLITES_COUNT_MAX then
            setSatCur d (fun _ =>
              ⟨svid, GNSS_SATELLITES_STATE_SEARCHING, 0, 0, 0⟩)
          else d
        (d, next)
      | none =>
        ({ d with nmea := { d.nmea with sv_in_view_sentences := 0 } },
         NMEA_FIELD_SEQUENCE_SKIP)
    else if sequence = NMEA_FIELD_SEQUENCE_GSV_SV_IN_VIEW_ELEV then
      let stored : Option Nat :=
        match data with
        | [] => some 0
        | _ :: _ => nmea_parse_unsigned data
      match stored with
      | some elevation =>
        let d := if d.satCount < GNSS_SATELLITES_COUNT_MAX then
            setSatCur d (fun info => { info with elevation := elevation })
          else d
        (d, next)
      | none =>
        ({ d with nmea := { d.nmea with sv_in_view_sentences := 0 } },
         NMEA_FIELD_SEQUENCE_SKIP)
    else if sequence = NMEA_FIELD_SEQUENCE_GSV_SV_IN_VIEW_AZIM then
      let stored : Option Nat :=
        match data with
        | [] => some 0
        | _ :: _ => nmea_parse_unsigned data
      match stored with
      | some azimuth =>
        let d := if d.satCount < GNSS_SATELLITES_COUNT_MAX then
            setSatCur d (fun info => { info with azimuth := azimuth })
          else d
        (d, next)
      | none =>
        ({ d with nmea := { d.nmea with sv_in_view_sentences := 0 } },
         NMEA_FIELD_SEQUENCE_SKIP)
    else if sequence = NMEA_FIELD_SEQUENCE_GSV_SV_IN_VIEW_SNR then
      let parsed : Option Nat :=
        match data with
        | [] => some 0
        | _ :: _ => nmea_parse_unsigned data
      match parsed with
      | some snr =>
        let d := if d.satCount < GNSS_SATELLITES_COUNT_MAX ∧ data ≠ [] then
            setSatCur d (fun info =>
              { info with state := GNSS_SATELLITES_STATE_TRACKING, snr := snr })
          else d
        let d := { d with
            satCount := d.satCount + 1,
            nmea := { d.nmea with sv_in_view_index := (d.nmea.sv_in_view_index + 1) % 256 } }
        if d.nmea.sv_in_view_index = d.nmea.sv_in_view_count ∨
            d.nmea.sv_in_view_index &&& 3 = 0 then
          (d, NMEA_FIELD_SEQUENCE_GSV_END)
        else (d, NMEA_FIELD_SEQUENCE_GSV_SV_IN_VIEW_ID)
      | none =>
        ({ d with nmea := { d.nmea with sv_in_view_sentences := 0 } },
         NMEA_FIELD_SEQUENCE_SKIP)
    else if sequence = NMEA_FIELD_SEQUENCE_RMC_STATUS then
      if data.getD 0 0 = 65 then
        ({ d with nmea := { d.nmea with status := NMEA_STATUS_DATA_VALID } }, next)
      else if data.getD 0 0 = 86 then
        ({ d with nmea := { d.nmea with status := NMEA_STATUS_RECEIVER_WARNING } }, next)
      else (d, NMEA_FIELD_SEQUENCE_SKIP)
    else if sequence = NMEA_FIELD_SEQUENCE_RMC_SPEED then
      if data = [] then
        ({ d with nmea := { d.nmea with
            mask := clear16 d.nmea.mask NMEA_FIELD_MASK_SPEED } }, next)
      else
        match nmea_parse_fixed data 3 with
        | some speed =>
          ({ d with location := { d.location with
              speed := ((speed * 1852 + 1800) % 4294967296) / 3600 } }, next)
        | none => (d, NMEA_FIELD_SEQUENCE_SKIP)
    else if sequence = NMEA_FIELD_SEQUENCE_RMC_COURSE then
      if data = [] then
        ({ d with nmea := { d.nmea with
            mask := clear16 d.nmea.mask NMEA_FIELD_MASK_COURSE } }, next)
      else
        match nmea_parse_fixed data 5 with
        | some course =>
          ({ d with location := { d.location with course := course } }, next)
        | none => (d, NMEA_FIELD_SEQUENCE_SKIP)
    else if sequence = NMEA_FIELD_SEQUENCE_RMC_DATE then
      if data = [] then
        ({ d with nmea := { d.nmea with
            mask := clear16 d.nmea.mask NMEA_FIELD_MASK_TIME } }, next)
      else
        match nmea_parse_unsigned data with
        | some date =>
          let day := (date / 10000) % 256
          let month := ((sub32 date (day * 10000)) / 100) % 256
          let year := (sub32 (sub32 date (day * 10000)) (month * 100)) % 256
          let year := if year < 80 then (2000 + year - 1980) % 256
            else (1900 + year - 1980) % 256
          ({ d with location := { d.location with
              time := { d.location.time with day := day, month := month, year := year } } },
           next)
        | none => (d, NMEA_FIELD_SEQUENCE_SKIP)
    else if sequence = NMEA_FIELD_SEQUENCE_RMC_MODE then
      (d, NMEA_FIELD_SEQUENCE_RMC_END)
    else if sequence = NMEA_FIELD_SEQUENCE_PMTK001_COMMAND then
      match data, nmea_parse_unsigned data with
      | _ :: _, some command =>
        ({ d with nmea := { d.nmea with mtk_command := command % 65536 } }, next)
      | _, _ => (d, NMEA_FIELD_SEQUENCE_SKIP)
    else if sequence = NMEA_FIELD_SEQUENCE_PMTK001_STATUS then
      match data, nmea_parse_unsigned data with
      | _ :: _, some status =>
        ({ d with nmea := { d.nmea with mtk_status := status % 65536 } },
         NMEA_FIELD_SEQUENCE_PMTK001_END)
      | _, _ => (d, NMEA_FIELD_SEQUENCE_SKIP)
    else (d, next)
  { stepState.1 with nmea := { stepState.1.nmea with sequence := stepState.2 } }

/-! ## NMEA end-of-sentence processing (`nmea_end_sentence`) -/

/-- The per-sentence switch at the head of `nmea_end_sentence`: propagate the
per-sentence field mask into the location mask, update `seen`/`expected`, and
route PMTK001 acknowledgements to the MTK configuration driver. -/
def nmea_end_switch (d : Device) : Device × List Event :=
  let s := d.nmea.sequence
  if s = NMEA_FIELD_SEQUENCE_GGA_END then
    let mask := d.location.mask
    let mask := if d.nmea.mask &&& NMEA_FIELD_MASK_POSITION ≠ 0 then
      mask ||| GNSS_LOCATION_MASK_POSITION else mask
    let mask := if d.nmea.mask &&& NMEA_FIELD_MASK_ALTITUDE ≠ 0 then
      mask ||| GNSS_LOCATION_MASK_ALTITUDE else mask
    let mask := if d.nmea.mask &&& NMEA_FIELD_MASK_HDOP ≠ 0 then
      mask ||| GNSS_LOCATION_MASK_HDOP else mask
    ({ d with
        location := { d.location with mask := mask },
        seen := clear32 (d.seen ||| NMEA_SENTENCE_MASK_GPGGA)
          NMEA_SENTENCE_MASK_SOLUTION }, [])
  else if s = NMEA_FIELD_SEQUENCE_GSA_END then
    let mask := d.location.mask
    let mask := if d.nmea.mask &&& NMEA_FIELD_MASK_PDOP ≠ 0 then
      mask ||| GNSS_LOCATION_MASK_PDOP else mask
    let mask := if d.nmea.mask &&& NMEA_FIELD_MASK_VDOP ≠ 0 then
      mask ||| GNSS_LOCATION_MASK_VDOP else mask
    let d := { d with location := { d.location with mask := mask } }
    if d.nmea.talker = 78 then
      let d := { d with
          expected := d.expected ||| (NMEA_SENTENCE_MASK_GPGSA ||| NMEA_SENTENCE_MASK_GPGSV |||
            NMEA_SENTENCE_MASK_GLGSA ||| NMEA_SENTENCE_MASK_GLGSV) }
      if d.seen &&& NMEA_SENTENCE_MASK_GPGSA = 0 then
        ({ d with seen := d.seen ||| NMEA_SENTENCE_MASK_GPGSA }, [])
      else
        ({ d with seen := clear32 (d.seen ||| NMEA_SENTENCE_MASK_GLGSA) NMEA_SENTENCE_MASK_SOLUTION }, [])
    else if d.nmea.talker = 76 then
      ({ d with
          expected := clear32 d.expected
            (NMEA_SENTENCE_MASK_GPGSA ||| NMEA_SENTENCE_MASK_GPGSV) |||
            (NMEA_SENTENCE_MASK_GLGSA ||| NMEA_SENTENCE_MASK_GLGSV),
          seen := clear32 (d.seen ||| NMEA_SENTENCE_MASK_GLGSA)
            NMEA_SENTENCE_MASK_SOLUTION }, [])
    else
      ({ d with
          expected := clear32 d.expected
            (NMEA_SENTENCE_MASK_GLGSA ||| NMEA_SENTENCE_MASK_GLGSV) |||
            (NMEA_SENTENCE_MASK_GPGSA ||| NMEA_SENTENCE_MASK_GPGSV),
          seen := clear32 (d.seen ||| NMEA_SENTENCE_MASK_GPGSA)
            NMEA_SENTENCE_MASK_SOLUTION }, [])
  else if s = NMEA_FIELD_SEQUENCE_GST_END then
    let mask := d.location.mask
    let mask := if d.nmea.mask &&& NMEA_FIELD_MASK_EHPE ≠ 0 then
      mask ||| GNSS_LOCATION_MASK_EHPE else mask
    let mask := if d.nmea.mask &&& NMEA_FIELD_MASK_EVPE ≠ 0 then
      mask ||| GNSS_LOCATION_MASK_EVPE else mask
    ({ d with
        location := { d.location with mask := mask },
        expected := d.expected ||| NMEA_SENTENCE_MASK_GPGST,
        seen := clear32 (d.seen ||| NMEA_SENTENCE_MASK_GPGST)
          NMEA_SENTENCE_MASK_SOLUTION }, [])
  else if s = NMEA_FIELD_SEQUENCE_GSV_END then
    if d.nmea.sv_in_view_count = d.nmea.sv_in_view_index then
      let d := { d with nmea := { d.nmea with sv_in_view_sentences := 0 } }
      let d := if d.nmea.talker = 80 then
          { d with seen := d.seen ||| NMEA_SENTENCE_MASK_GPGSV } else d
      let d := if d.nmea.talker = 76 then
          { d with seen := d.seen ||| NMEA_SENTENCE_MASK_GLGSV } else d
      (d, [])
    else (d, [])
  else if s = NMEA_FIELD_SEQUENCE_RMC_END then
    let mask := d.location.mask
    let mask := if d.nmea.mask &&& NMEA_FIELD_MASK_TIME ≠ 0 then
      mask ||| GNSS_LOCATION_MASK_TIME else mask
    let mask := if d.nmea.mask &&& NMEA_FIELD_MASK_SPEED ≠ 0 then
      mask ||| GNSS_LOCATION_MASK_SPEED else mask
    let mask := if d.nmea.mask &&& NMEA_FIELD_MASK_COURSE ≠ 0 then
      mask ||| GNSS_LOCATION_MASK_COURSE else mask
    ({ d with
        location := { d.location with mask := mask },
        seen := clear32 (d.seen ||| NMEA_SENTENCE_MASK_GPRMC)
          NMEA_SENTENCE_MASK_SOLUTION }, [])
  else if s = NMEA_FIELD_SEQUENCE_PMTK001_END then
    if d.command = d.nmea.mtk_command then
      mtk_configure { d with command := 0xFFFFFFFF }
    else (d, [])
  else (d, [])

/-- The location-publishing phase of `nmea_end_sentence`: when every expected
location-contributing sentence has been seen, derive the fix type, publish,
clear the contributing bits and set the `SOLUTION` interlock bit. -/
def nmea_publish_location (d : Device) : Device × List Event :=
  let expected := d.expected &&&
    (NMEA_SENTENCE_MASK_GPGGA ||| NMEA_SENTENCE_MASK_GPGSA |||
     NMEA_SENTENCE_MASK_GPGST ||| NMEA_SENTENCE_MASK_GPRMC |||
     NMEA_SENTENCE_MASK_GLGSA)
  if d.seen &&& expected = expected then
    let d :=
      if d.nmea.status = NMEA_STATUS_DATA_VALID ∧
          d.nmea.navigation ≠ NMEA_NAVIGATION_NONE then
        { d with location := { d.location with
            type := if d.nmea.navigation = NMEA_NAVIGATION_2D then
              GNSS_LOCATION_TYPE_2D else GNSS_LOCATION_TYPE_3D,
            numsv := d.nmea.sv_used_count } }
      else
        { d with
            location := { d.location with type := GNSS_LOCATION_TYPE_NONE, numsv := 0 },
            nmea := { d.nmea with
              sv_used_count := 0,
              sv_used_mask0 := 0, sv_used_mask1 := 0, sv_used_mask2 := 0 } }
    let r := gnss_location_fn d
    let d := r.1
    let evs := r.2
    ({ d with
        seen := clear32 d.seen
          (NMEA_SENTENCE_MASK_GPGGA ||| NMEA_SENTENCE_MASK_GPGSA |||
           NMEA_SENTENCE_MASK_GPGST ||| NMEA_SENTENCE_MASK_GPRMC |||
           NMEA_SENTENCE_MASK_GLGSA) ||| NMEA_SENTENCE_MASK_SOLUTION }, evs)
  else (d, [])

/-- The satellites-publishing phase of `nmea_end_sentence`: guarded by the
`SOLUTION` interlock bit; cross-references the GSA used-mask to set the
`Navigating` flag, publishes, and clears the GSV bits. -/
def nmea_publish_satellites (d : Device) : Device × List Event :=
  let expected := d.expected &&& (NMEA_SENTENCE_MASK_GPGSV ||| NMEA_SENTENCE_MASK_GLGSV)
  if d.seen &&& NMEA_SENTENCE_MASK_SOLUTION ≠ 0 ∧ d.seen &&& expected = expected then
    let used := fun (svid : Nat) =>
      let idx := (svid - 1) >>> 5
      let word := if idx = 0 then d.nmea.sv_used_mask0
        else if idx = 1 then d.nmea.sv_used_mask1 else d.nmea.sv_used_mask2
      word &&& (1 <<< ((svid - 1) &&& 31)) ≠ 0
    let d := { d with satInfo := d.satInfo.mapIdx (fun n info =>
        if n < d.satCount ∧ 1 ≤ info.prn ∧ info.prn ≤ 96 ∧ used info.prn then
          { info with state := info.state ||| GNSS_SATELLITES_STATE_NAVIGATING }
        else info) }
    let r := gnss_satellites_fn d
    ({ r.1 with seen := clear32 r.1.seen (NMEA_SENTENCE_MASK_GPGSV ||| NMEA_SENTENCE_MASK_GLGSV) },
     r.2)
  else (d, [])

/-- `nmea_end_sentence`: the finalizer invoked by the framing layer at the
LF of a checksum-valid sentence. -/
def nmea_end_sentence (d0 : Device) : Device × List Event :=
  let r1 := nmea_end_switch d0
  let d1 := { r1.1 with nmea := { r1.1.nmea with sequence := NMEA_FIELD_SEQUENCE_START } }
  if d1.init = GNSS_INIT_DONE then
    let r2 := nmea_publish_location d1
    let r3 := nmea_publish_satellites r2.1
    (r3.1, r1.2 ++ r2.2 ++ r3.2)
  else (d1, r1.2)

/-! ## Binary message processor (§4.D) -/

/-- Interpret a `w`-bit unsigned value as two's-complement signed. -/
def toSigned (w n : Nat) : Int :=
  if n < 2 ^ (w - 1) then (n : Int) else (n : Int) - 2 ^ w

/-- Truncate an `Int` to two's-complement `int32_t`. -/
def wrap32s (x : Int) : Int := (x + 2147483648).emod 4294967296 - 2147483648

/-- `ubx_data_uint8` (little-endian byte assembly, per the reference
implementation kept alongside the pointer-cast one in the source). -/
def ubx_data_uint8 (data : List Nat) (i : Nat) : Nat := data.getD i 0 % 256

def ubx_data_uint16 (data : List Nat) (i : Nat) : Nat :=
  ubx_data_uint8 data i ||| (ubx_data_uint8 data (i + 1) <<< 8)

def ubx_data_uint32 (data : List Nat) (i : Nat) : Nat :=
  ubx_data_uint8 data i ||| (ubx_data_uint8 data (i + 1) <<< 8) |||
    (ubx_data_uint8 data (i + 2) <<< 16) ||| (ubx_data_uint8 data (i + 3) <<< 24)

def ubx_data_int8 (data : List Nat) (i : Nat) : Int :=
  toSigned 8 (ubx_data_uint8 data i)

def ubx_data_int16 (data : List Nat) (i : Nat) : Int :=
  toSigned 16 (ubx_data_uint16 data i)

def ubx_data_int32 (data : List Nat) (i : Nat) : Int :=
  toSigned 32 (ubx_data_uint32 data i)

/-- `ubx_start_message`: at the length bytes of a frame, a NAV-SVINFO
message arms chunked delivery (20-byte header, then 12-byte records) and
resets the satellite table. -/
def ubx_start_message (d : Device) : Device :=
  if d.ubx.message = 0x0130 then
    { d with
        rx_chunk := 20, satCount := 0,
        seen := clear32 d.seen UBX_MESSAGE_MASK_NAV_SVINFO }
  else d

/-- The satellite-id remap chain of the NAV-SVINFO handler in
`ubx_parse_message`; returns 0 for an id outside every recognized range. -/
def ubx_svid_remap (svid : Nat) : Nat :=
  if 1 ≤ svid ∧ svid ≤ 32 then svid
  else if 33 ≤ svid ∧ svid ≤ 64 then svid + (201 + 5 - 33)
  else if 65 ≤ svid ∧ svid ≤ 96 then svid
  else if 120 ≤ svid ∧ svid ≤ 151 then svid - 87
  else if 152 ≤ svid ∧ svid ≤ 158 then svid
  else if 159 ≤ svid ∧ svid ≤ 163 then svid + (201 - 159)
  else if 193 ≤ svid ∧ svid ≤ 200 then svid
  else if svid = 255 then svid
  else 0

/-- `ubx_parse_message`: invoked by the framing layer whenever the byte
count reaches the current chunk boundary; for NAV-SVINFO it consumes one
per-satellite record from the staging buffer. -/
def ubx_parse_message (d : Device) : Device :=
  if d.ubx.message = 0x0130 then
    let data := d.rx_data
    let svid := ubx_svid_remap (ubx_data_uint8 data 9)
    let d :=
      if svid ≠ 0 ∧ d.satCount < GNSS_SATELLITES_COUNT_MAX then
        let elevation := if ubx_data_int8 data 13 > 0 then
          (ubx_data_int8 data 13).toNat else 0
        let azimuth := if ubx_data_int8 data 13 > 0 then
          ubx_data_int16 data 14 else 0
        let snr := ubx_data_uint8 data 12
        let state :=
          if ubx_data_uint8 data 11 &&& 0x0f ≤ 1 then GNSS_SATELLITES_STATE_SEARCHING
          else if ubx_data_uint8 data 11 &&& 0x0f ≤ 7 then GNSS_SATELLITES_STATE_TRACKING
          else GNSS_SATELLITES_STATE_SEARCHING
        let state :=
          if state &&& GNSS_SATELLITES_STATE_TRACKING ≠ 0 then
            let state := if ubx_data_uint8 data 10 &&& 0x01 ≠ 0 then
              state ||| GNSS_SATELLITES_STATE_NAVIGATING else state
            if ubx_data_uint8 data 10 &&& 0x02 ≠ 0 then
              state ||| GNSS_SATELLITES_STATE_CORRECTION else state
          else state
        let d := setSatCur d (fun _ => ⟨svid, state, snr, elevation, azimuth⟩)
        { d with satCount := d.satCount + 1 }
      else d
    { d with
        rx_offset := (d.rx_offset + 12) % 65536,
        rx_chunk := (d.rx_chunk + 12) % 65536 }
  else d

/-! ## UBX configuration driver (reachable from the receive path) -/

def ubx_cfg_rxm_continuous : List Nat :=
  [0xff, 0xff, 0xff, 0xff, 0xff, 0xff, 0xff, 0xff,
   0xb5, 0x62, 0x06, 0x11, 0x02, 0x00, 0x00, 0x00, 0x19, 0x81]

/-- `ubx_send`: record the pending (class,id) command, set the busy flag and
hand the frame to the host send routine. -/
def ubx_send (d : Device) (data : List Nat) : Device × List Event :=
  let command := if data = ubx_cfg_rxm_continuous then 0x0611
    else ((ubx_data_uint8 data 2) <<< 8) ||| ubx_data_uint8 data 3
  let count := if data = ubx_cfg_rxm_continuous then ubx_cfg_rxm_continuous.length
    else (ubx_data_uint8 data 4 ||| ((ubx_data_uint8 data 5) <<< 8)) + 8
  ({ d with command := command, busy := 1 }, [Event.send (data.take count)])

/-- `ubx_configure`: stop the retransmit timer and advance the UBX command
table; a transmitted command re-arms the timer. -/
def ubx_configure (d : Device) : Device × List Event :=
  let step : Device × Option (List Nat) :=
    match d.table with
    | none => (d, none)
    | some entries =>
      if d.init = GNSS_INIT_UBX_BAUD_RATE then
        ({ d with init := GNSS_INIT_UBX_INIT_TABLE, table := some entries.tail },
         entries.head?)
      else
        match entries with
        | data :: rest => ({ d with table := some rest }, some data)
        | [] =>
          let d := { d with table := none }
          if d.init = GNSS_INIT_UBX_INIT_TABLE then
            ({ d with
                init := GNSS_INIT_DONE,
                expected := UBX_MESSAGE_MASK_NAV_DOP ||| UBX_MESSAGE_MASK_NAV_PVT |||
                  UBX_MESSAGE_MASK_NAV_SVINFO ||| UBX_MESSAGE_MASK_NAV_TIMEGPS,
                seen := 0,
                location := { d.location with type := 0, mask := 0 } }, none)
          else (d, none)
  match step with
  | (d, some data) =>
    let (d, evs) := ubx_send d data
    (d, Event.timerStop :: evs ++ [Event.timerStart])
  | (d, none) => (d, [Event.timerStop])

/-! ## UBX end-of-message processing (`ubx_end_message`) -/

/-- The NAV-PVT decoding of `ubx_end_message`: typed little-endian reads of
time, position, velocity and accuracy fields at their fixed payload
offsets, with the fix-type and quality derivation. -/
def ubx_nav_pvt_location (loc0 : GnssLocation) (data : List Nat) : GnssLocation :=
  let time : UtcTime :=
    if ubx_data_uint8 data 11 &&& 0x03 = 0x03 then
      { year := (((ubx_data_uint16 data 4 : Int) - 1980).emod 256).toNat,
        month := ubx_data_uint8 data 6,
        day := ubx_data_uint8 data 7,
        hour := ubx_data_uint8 data 8,
        minute := ubx_data_uint8 data 9,
        second := ubx_data_uint8 data 10,
        millis := if ubx_data_int32 data 16 > 0 then
            (((ubx_data_int32 data 16 + 500000).tdiv 1000000).toNat) % 65536
          else 0 }
    else ⟨0, 1, 6, 0, 0, 0, 0⟩
  let loc := { loc0 with
    time := time,
    latitude := ubx_data_int32 data 28,
    longitude := ubx_data_int32 data 24,
    altitude := ubx_data_int32 data 36,
    separation := wrap32s (ubx_data_int32 data 32 - ubx_data_int32 data 36),
    speed := ubx_data_int32 data 60,
    course := ubx_data_int32 data 64,
    climb := wrap32s (- ubx_data_int32 data 56),
    ehpe := ubx_data_uint32 data 40,
    evpe := ubx_data_uint32 data 44 }
  let fixType := ubx_data_uint8 data 20
  let flags := ubx_data_uint8 data 21
  let qualityOf : Nat :=
    if flags &&& 0xc0 ≠ 0 then
      if flags &&& 0x80 ≠ 0 then GNSS_LOCATION_QUALITY_RTK_FIXED
      else GNSS_LOCATION_QUALITY_RTK_FLOAT
    else if flags &&& 0x01 ≠ 0 then
      if flags &&& 0x02 ≠ 0 then GNSS_LOCATION_QUALITY_DIFFERENTIAL
      else GNSS_LOCATION_QUALITY_AUTONOMOUS
    else GNSS_LOCATION_QUALITY_NONE
  let loc :=
    if fixType = 0x00 then
      { loc with type := GNSS_LOCATION_TYPE_NONE, quality := GNSS_LOCATION_QUALITY_NONE }
    else if fixType = 0x01 then
      { loc with
          type := GNSS_LOCATION_TYPE_NONE,
          quality := GNSS_LOCATION_QUALITY_ESTIMATED }
    else if fixType = 0x02 then
      { loc with type := GNSS_LOCATION_TYPE_2D, quality := qualityOf }
    else if fixType = 0x03 then
      { loc with type := GNSS_LOCATION_TYPE_3D, quality := qualityOf }
    else if fixType = 0x04 then
      { loc with
          type := GNSS_LOCATION_TYPE_2D,
          quality := GNSS_LOCATION_QUALITY_ESTIMATED }
    else if fixType = 0x05 then
      { loc with type := GNSS_LOCATION_TYPE_TIME, quality := GNSS_LOCATION_QUALITY_NONE }
    else loc
  { loc with
    numsv := ubx_data_uint8 data 23,
    mask := loc.mask ||| (GNSS_LOCATION_MASK_POSITION ||| GNSS_LOCATION_MASK_ALTITUDE |||
      GNSS_LOCATION_MASK_SPEED ||| GNSS_LOCATION_MASK_COURSE |||
      GNSS_LOCATION_MASK_CLIMB ||| GNSS_LOCATION_MASK_EHPE |||
      GNSS_LOCATION_MASK_EVPE) }

/-- The navigation-cycle check at the head of the NAV-class branch of
`ubx_end_message`: an itow mismatch against any pending NAV frame discards
the working fix and starts a new cycle. -/
def ubx_nav_cycle_check (d : Device) : Device :=
  if d.seen &&& (UBX_MESSAGE_MASK_NAV_DOP ||| UBX_MESSAGE_MASK_NAV_PVT |||
      UBX_MESSAGE_MASK_NAV_SVINFO ||| UBX_MESSAGE_MASK_NAV_TIMEGPS |||
      UBX_MESSAGE_MASK_SOLUTION) ≠ 0 ∧
      d.ubx.itow ≠ ubx_data_uint32 d.rx_data 0 then
    { d with seen := 0, location := { d.location with type := 0, mask := 0 } }
  else d

/-- The per-message switch of `ubx_end_message`: navigation-cycle detection
by itow, typed decoding of NAV-DOP / NAV-PVT / NAV-TIMEGPS / NAV-SVINFO, and
ACK/NACK routing to the UBX configuration driver. -/
def ubx_end_switch (d0 : Device) : Device × List Event :=
  let message := d0.ubx.message
  let data := d0.rx_data
  if message >>> 8 = 0x01 then
    let d1 := ubx_nav_cycle_check d0
    let d := { d1 with ubx := { d1.ubx with itow := ubx_data_uint32 data 0 } }
    if message &&& 0xff = 0x04 then
      ({ d with
          location := { d.location with
            pdop := ubx_data_uint16 data 6,
            hdop := ubx_data_uint16 data 12,
            vdop := ubx_data_uint16 data 10,
            mask := d.location.mask ||| (GNSS_LOCATION_MASK_PDOP |||
              GNSS_LOCATION_MASK_HDOP ||| GNSS_LOCATION_MASK_VDOP) },
          seen := d.seen ||| UBX_MESSAGE_MASK_NAV_DOP }, [])
    else if message &&& 0xff = 0x07 then
      ({ d with
          location := ubx_nav_pvt_location d.location data,
          seen := clear32 (d.seen ||| UBX_MESSAGE_MASK_NAV_PVT)
            UBX_MESSAGE_MASK_SOLUTION }, [])
    else if message &&& 0xff = 0x20 then
      let valid := ubx_data_uint8 data 11 &&& 0x03 = 0x03
      let tow0 : Int := wrap32s
        ((ubx_data_uint32 data 0 : Int) +
          (ubx_data_int32 data 4 + 500000).tdiv 1000000)
      let week0 := ubx_data_uint16 data 8
      let tow1 : Int := if tow0 < 0 then tow0 + 604800000 else tow0
      let week1 := if tow0 < 0 then (week0 + 65535) % 65536 else week0
      let tow2 : Int := if tow1 ≥ 604800000 then tow1 - 604800000 else tow1
      let week2 := if tow1 ≥ 604800000 then (week1 + 1) % 65536 else week1
      ({ d with
          ubx := { d.ubx with
            week := if valid then week2 else 0,
            tow := if valid then (tow2.emod 4294967296).toNat else 0 },
          location := { d.location with
            correction := if valid then ubx_data_uint8 data 10 else 0 },
          seen := clear32 (d.seen ||| UBX_MESSAGE_MASK_NAV_TIMEGPS)
            UBX_MESSAGE_MASK_SOLUTION }, [])
    else if message &&& 0xff = 0x30 then
      ({ d with seen := d.seen ||| UBX_MESSAGE_MASK_NAV_SVINFO }, [])
    else (d, [])
  else if message = 0x0500 then
    let command := ((ubx_data_uint8 data 0) <<< 8) ||| ubx_data_uint8 data 1
    if command = d0.command then
      ubx_configure { d0 with command := 0xFFFFFFFF }
    else (d0, [])
  else if message = 0x0501 then
    let command := ((ubx_data_uint8 data 0) <<< 8) ||| ubx_data_uint8 data 1
    if command = d0.command then
      ubx_configure { d0 with command := 0xFFFFFFFF }
    else (d0, [])
  else (d0, [])

/-- The location-publishing phase of `ubx_end_message`, with the UTC
leap-second correction derived from week/tow when NAV-TIMEGPS is not part of
the current group. -/
def ubx_publish_location (d : Device) : Device × List Event :=
  let expected := d.expected &&& (UBX_MESSAGE_MASK_NAV_DOP |||
    UBX_MESSAGE_MASK_NAV_PVT ||| UBX_MESSAGE_MASK_NAV_TIMEGPS)
  if d.seen &&& expected = expected then
    let d :=
      if d.ubx.week ≠ 0 ∧ d.location.time.year ≠ 0 then
        let d :=
          if d.seen &&& UBX_MESSAGE_MASK_NAV_TIMEGPS = 0 then
            { d with location := { d.location with
                correction := utc_offset_time d.location.time d.ubx.week d.ubx.tow } }
          else d
        { d with location := { d.location with
            mask := d.location.mask |||
              (GNSS_LOCATION_MASK_TIME ||| GNSS_LOCATION_MASK_CORRECTION) } }
      else d
    let r := gnss_location_fn d
    let d := r.1
    let evs := r.2
    ({ d with
        seen := clear32 d.seen (UBX_MESSAGE_MASK_NAV_DOP |||
          UBX_MESSAGE_MASK_NAV_PVT ||| UBX_MESSAGE_MASK_NAV_TIMEGPS) |||
          UBX_MESSAGE_MASK_SOLUTION }, evs)
  else (d, [])

/-- The satellites-publishing phase of `ubx_end_message`, guarded by the
`SOLUTION` interlock bit. -/
def ubx_publish_satellites (d : Device) : Device × List Event :=
  let expected := d.expected &&& UBX_MESSAGE_MASK_NAV_SVINFO
  if d.seen &&& UBX_MESSAGE_MASK_SOLUTION ≠ 0 ∧ d.seen &&& expected = expected then
    let r := gnss_satellites_fn d
    ({ r.1 with seen := clear32 r.1.seen UBX_MESSAGE_MASK_NAV_SVINFO }, r.2)
  else (d, [])

/-- `ubx_end_message`: the finalizer invoked by the framing layer after a
Fletcher-valid binary frame whose retained span fits the staging buffer. -/
def ubx_end_message (d0 : Device) : Device × List Event :=
  let r1 := ubx_end_switch d0
  if r1.1.init = GNSS_INIT_DONE then
    let r2 := ubx_publish_location r1.1
    let r3 := ubx_publish_satellites r2.1
    (r3.1, r1.2 ++ r2.2 ++ r3.2)
  else (r1.1, r1.2)

/-! ## Framing state machine (`gnss_receive`, §4.B) -/

/-- One byte of `gnss_receive`'s loop body.  In the C code `rx_data` is a
96-byte array inside the device record; the embedding keeps it as a 96-entry
list, makes an out-of-range store a no-op on the buffer, and records every
attempted store (index and value) as a `storeRx` event.  The NAV-SVINFO
chunk arithmetic `rx_count - rx_offset` is `Nat` subtraction; on every state
reachable by the framing machine `rx_offset ≤ rx_count` holds, matching the
C `int` subtraction of the two `uint16_t` counters. -/
def gnss_receive_step (d : Device) (b : Nat) : Device × List Event :=
  let c := b % 256
  if d.state ≤ GNSS_STATE_NMEA_END_LF ∧ c = 36 then
    (nmea_start_sentence
      { d with state := GNSS_STATE_NMEA_PAYLOAD, checksum := 0, rx_count := 0 }, [])
  else if d.state = GNSS_STATE_START then
    (if d.mode = GnssMode.ublox ∧ c = 0xb5 then
      { d with state := GNSS_STATE_UBX_SYNC_2 } else d, [])
  else if d.state = GNSS_STATE_NMEA_PAYLOAD then
    if c = 42 then
      let field := d.rx_data.take d.rx_count
      let d := { d with rx_data := d.rx_data.set d.rx_count 0 }
      let d := nmea_parse_sentence d field
      ({ d with state := GNSS_STATE_NMEA_CHECKSUM_1 }, [Event.storeRx d.rx_count 0])
    else if 0x20 ≤ c ∧ c ≤ 0x7f then
      if d.rx_count ≥ GNSS_RX_DATA_SIZE then
        ({ d with state := GNSS_STATE_START }, [])
      else
        let d := { d with checksum := d.checksum ^^^ c }
        if c = 44 then
          let field := d.rx_data.take d.rx_count
          let idx := d.rx_count
          let d := { d with rx_data := d.rx_data.set d.rx_count 0 }
          let d := nmea_parse_sentence d field
          ({ d with rx_count := 0 }, [Event.storeRx idx 0])
        else
          ({ d with rx_data := d.rx_data.set d.rx_count c, rx_count := d.rx_count + 1 },
           [Event.storeRx d.rx_count c])
    else
      ({ d with state := GNSS_STATE_START }, [])
  else if d.state = GNSS_STATE_NMEA_CHECKSUM_1 then
    if c = nmea_hex_ascii.getD (d.checksum >>> 4) 0 then
      ({ d with state := GNSS_STATE_NMEA_CHECKSUM_2 }, [])
    else
      ({ d with state := GNSS_STATE_START }, [])
  else if d.state = GNSS_STATE_NMEA_CHECKSUM_2 then
    if c = nmea_hex_ascii.getD (d.checksum &&& 0x0f) 0 then
      ({ d with state := GNSS_STATE_NMEA_END_CR }, [])
    else
      ({ d with state := GNSS_STATE_START }, [])
  else if d.state = GNSS_STATE_NMEA_END_CR then
    if c = 13 then
      ({ d with state := GNSS_STATE_NMEA_END_LF }, [])
    else
      ({ d with state := GNSS_STATE_START }, [])
  else if d.state = GNSS_STATE_NMEA_END_LF then
    if c = 10 then
      let r1 :=
        if d.init ≠ GNSS_INIT_DONE then
          if d.init = GNSS_INIT_MTK_BAUD_RATE then mtk_configure d
          else if d.init = GNSS_INIT_UBX_BAUD_RATE then ubx_configure d
          else (d, [])
        else (d, [])
      let r2 := nmea_end_sentence r1.1
      ({ r2.1 with state := GNSS_STATE_START }, r1.2 ++ Event.endSentence :: r2.2)
    else
      ({ d with state := GNSS_STATE_START }, [])
  else if d.state = GNSS_STATE_UBX_SYNC_2 then
    if c ≠ 0x62 then
      ({ d with state := GNSS_STATE_START }, [])
    else
      ({ d with state := GNSS_STATE_UBX_MESSAGE_1 }, [])
  else if d.state = GNSS_STATE_UBX_MESSAGE_1 then
    ({ d with
        ubx := { d.ubx with ck_a := c, ck_b := c, message := (c <<< 8) % 65536 },
        state := GNSS_STATE_UBX_MESSAGE_2 }, [])
  else if d.state = GNSS_STATE_UBX_MESSAGE_2 then
    let ck_a := (d.ubx.ck_a + c) % 256
    ({ d with
        ubx := { d.ubx with
          ck_a := ck_a, ck_b := (d.ubx.ck_b + ck_a) % 256,
          message := d.ubx.message ||| c },
        state := GNSS_STATE_UBX_LENGTH_1 }, [])
  else if d.state = GNSS_STATE_UBX_LENGTH_1 then
    let ck_a := (d.ubx.ck_a + c) % 256
    ({ d with
        ubx := { d.ubx with ck_a := ck_a, ck_b := (d.ubx.ck_b + ck_a) % 256, length := c },
        state := GNSS_STATE_UBX_LENGTH_2 }, [])
  else if d.state = GNSS_STATE_UBX_LENGTH_2 then
    let ck_a := (d.ubx.ck_a + c) % 256
    let d := { d with
        ubx := { d.ubx with
          ck_a := ck_a, ck_b := (d.ubx.ck_b + ck_a) % 256,
          length := d.ubx.length ||| ((c <<< 8) % 65536) },
        rx_count := 0, rx_offset := 0, rx_chunk := 65535 }
    let d := ubx_start_message d
    if d.rx_count = d.ubx.length then
      ({ d with state := GNSS_STATE_UBX_CK_A }, [])
    else
      ({ d with state := GNSS_STATE_UBX_PAYLOAD }, [])
  else if d.state = GNSS_STATE_UBX_PAYLOAD then
    let ck_a := (d.ubx.ck_a + c) % 256
    let d := { d with ubx := { d.ubx with ck_a := ck_a, ck_b := (d.ubx.ck_b + ck_a) % 256 } }
    let span := d.rx_count - d.rx_offset
    let d :=
      if span < GNSS_RX_DATA_SIZE then { d with rx_data := d.rx_data.set span c } else d
    let evs := if span < GNSS_RX_DATA_SIZE then [Event.storeRx span c] else []
    let d := { d with rx_count := (d.rx_count + 1) % 65536 }
    let d := if d.rx_count = d.rx_chunk then ubx_parse_message d else d
    if d.rx_count = d.ubx.length then
      ({ d with state := GNSS_STATE_UBX_CK_A }, evs)
    else
      (d, evs)
  else if d.state = GNSS_STATE_UBX_CK_A then
    ({ d with
        ubx := { d.ubx with ck_a := d.ubx.ck_a ^^^ c },
        state := GNSS_STATE_UBX_CK_B }, [])
  else if d.state = GNSS_STATE_UBX_CK_B then
    let d := { d with ubx := { d.ubx with ck_b := d.ubx.ck_b ^^^ c } }
    if d.ubx.ck_a = 0 ∧ d.ubx.ck_b = 0 then
      let r1 :=
        if d.init ≠ GNSS_INIT_DONE ∧ d.init = GNSS_INIT_UBX_BAUD_RATE then
          ubx_configure d
        else (d, [])
      if r1.1.rx_count - r1.1.rx_offset ≤ GNSS_RX_DATA_SIZE then
        let r2 := ubx_end_message r1.1
        ({ r2.1 with state := GNSS_STATE_START },
         r1.2 ++ Event.endMessage r1.1.ubx.message :: r2.2)
      else
        ({ r1.1 with state := GNSS_STATE_START }, r1.2)
    else
      ({ d with state := GNSS_STATE_START }, [])
  else
    (d, [])

/-- `gnss_receive`: feed a byte list through the framing machine,
concatenating the event traces. -/
def processBytes (d : Device) : List Nat → Device × List Event
  | [] => (d, [])
  | b :: rest =>
    let step := gnss_receive_step d b
    let out := processBytes step.1 rest
    (out.1, step.2 ++ out.2)

/-! ## Specification-side definitions -/

/-- The Fletcher-8 running sums over a byte list, as the spec defines them:
`ck_a += b; ck_b += ck_a`, both modulo 256, starting from (0,0). -/
def fletcher8 (bytes : List Nat) : Nat × Nat :=
  bytes.foldl (fun p c =>
    let a := (p.1 + c % 256) % 256
    (a, (p.2 + a) % 256)) (0, 0)

/-- The NMEA checksum as the spec defines it: running XOR over the payload
bytes between `$` and `*`. -/
def nmeaXor (bytes : List Nat) : Nat := bytes.foldl (fun x c => x ^^^ c % 256) 0

/-- Upper hex digit (ASCII) of an NMEA checksum. -/
def hexHi (cs : Nat) : Nat := nmea_hex_ascii.getD (cs >>> 4) 0

/-- Lower hex digit (ASCII) of an NMEA checksum. -/
def hexLo (cs : Nat) : Nat := nmea_hex_ascii.getD (cs &&& 0x0f) 0

def isLocationEv : Event → Bool
  | Event.locationCb _ => true
  | _ => false

def isSatellitesEv : Event → Bool
  | Event.satellitesCb _ _ => true
  | _ => false

/-- A host callback event (location or satellites). -/
def isCallbackEv (e : Event) : Bool := isLocationEv e || isSatellitesEv e

def isEndMessageEv : Event → Bool
  | Event.endMessage _ => true
  | _ => false

def isEndSentenceEv : Event → Bool
  | Event.endSentence => true
  | _ => false

/-- The documented canonical PRN ranges of the spec: GPS 1..32,
GLONASS 65..96 or 255, SBAS 120..158, QZSS 193..200, BeiDou 201..237. -/
def canonicalPrn (prn : Nat) : Bool :=
  (1 ≤ prn && prn ≤ 32) || (65 ≤ prn && prn ≤ 96) || prn == 255 ||
  (120 ≤ prn && prn ≤ 158) || (193 ≤ prn && prn ≤ 200) || (201 ≤ prn && prn ≤ 237)

/-- The `SOLUTION` interlock bit of the `seen` mask (the NMEA and UBX paths
use the same bit 15). -/
def hasSolution (seen : Nat) : Prop := seen &&& 0x8000 ≠ 0

instance (seen : Nat) : Decidable (hasSolution seen) := by
  unfold hasSolution; infer_instance

/-! ## Concrete devices and byte streams -/

def locationZero : GnssLocation :=
  { time := ⟨0, 0, 0, 0, 0, 0, 0⟩, mask := 0, correction := 0, latitude := 0,
    longitude := 0, altitude := 0, separation := 0, speed := 0, course := 0,
    climb := 0, ehpe := 0, evpe := 0, pdop := 0, hdop := 0, vdop := 0,
    quality := 0, numsv := 0, type := 0 }

def nmeaContextZero : NmeaContext :=
  { talker := 0, sequence := 0, mask := 0, navigation := 0, status := 0,
    sv_in_view_sentences := 0, sv_in_view_count := 0, sv_in_view_index := 0,
    sv_used_count := 0, sv_used_mask0 := 0, sv_used_mask1 := 0,
    sv_used_mask2 := 0, mtk_command := 0, mtk_status := 0 }

def ubxContextZero : UbxContext :=
  { ck_a := 0, ck_b := 0, message := 0, length := 0, week := 0, tow := 0, itow := 0 }

/-- The steady state of an NMEA-mode device after initialization completes:
`init = DONE`, no pending command table, `seen = 0`, and the steady NMEA
expected-frame mask installed (cf. `gnss_initialize` and the `Done`
transition of `mtk_configure`). -/
def steadyNmea : Device :=
  { mode := GnssMode.nmea, state := GNSS_STATE_START, busy := 0,
    init := GNSS_INIT_DONE, seen := 0,
    expected := NMEA_SENTENCE_MASK_GPGGA ||| NMEA_SENTENCE_MASK_GPGSA |||
      NMEA_SENTENCE_MASK_GPGSV ||| NMEA_SENTENCE_MASK_GPRMC,
    checksum := 0, rx_count := 0, rx_offset := 0, rx_chunk := 0,
    table := none, rx_data := List.replicate 96 0,
    nmea := nmeaContextZero, ubx := ubxContextZero, location := locationZero,
    satCount := 0, satInfo := List.replicate 32 satInfoZero,
    command := 0xFFFFFFFF }

/-- The steady state of a u-blox-mode device after initialization completes
(cf. the `Done` transition of `ubx_configure`). -/
def steadyUblox : Device :=
  { steadyNmea with
      mode := GnssMode.ublox,
      expected := UBX_MESSAGE_MASK_NAV_DOP ||| UBX_MESSAGE_MASK_NAV_PVT |||
        UBX_MESSAGE_MASK_NAV_SVINFO ||| UBX_MESSAGE_MASK_NAV_TIMEGPS }

/-- The RMC sentence of the spec's first concrete scenario, exactly as
given (it carries no mode field). -/
def demoRmc : List Nat :=
  strBytes "$GPRMC,123519,A,4807.038,N,01131.000,E,022.4,084.4,230394,003.1,W*6A\r\n"

/-- A complete NMEA navigation cycle: GGA, GSA, GSV (one satellite with
on-wire id 97) and an RMC that carries the mode field, all with consistent
time stamps and valid checksums. -/
def demoCycle : List Nat :=
  strBytes "$GPGGA,123519,4807.038,N,01131.000,E,1,08,0.9,545.4,M,46.9,M,,*47\r\n" ++
  strBytes "$GPGSA,A,3,04,05,09,12,,,,,,,,,2.5,1.3,2.1*3F\r\n" ++
  strBytes "$GPGSV,1,1,01,97,45,123,30*44\r\n" ++
  strBytes "$GPRMC,123519,A,4807.038,N,01131.000,E,022.4,084.4,230394,003.1,W,A*07\r\n"

/-- A 97-byte NMEA payload that contains a comma (fields of 1 and 95
bytes). -/
def commaPayload97 : List Nat := strBytes "A," ++ List.replicate 95 66

/-- A u-blox frame with class 0x01, id 0x04 and declared length 97
(payload all zero); `102, 120` are its correct Fletcher-8 sums. -/
def ubxOversize97 : List Nat :=
  [0xb5, 0x62, 0x01, 0x04, 0x61, 0x00] ++ List.replicate 97 0 ++ [102, 120]

/-- A u-blox frame with class 0x01, id 0x07 and declared length 100
(payload all ones); `208, 203` are its correct Fletcher-8 sums. -/
def ubxOversize100 : List Nat :=
  [0xb5, 0x62, 0x01, 0x07, 0x64, 0x00] ++ List.replicate 100 1 ++ [208, 203]

/-- A u-blox NAV-SVINFO frame (class 0x01, id 0x30) with declared length
128 — well beyond the 96-byte staging area — and an all-zero payload;
`177, 20` are its correct Fletcher-8 sums.  Its chunked consumption keeps
the retained span small (8 at the checksum bytes). -/
def svinfoOversize128 : List Nat :=
  [0xb5, 0x62, 0x01, 0x30, 0x80, 0x00] ++ List.replicate 128 0 ++ [177, 20]

/-- A staged NAV-SVINFO chunk whose per-record satellite id (payload offset
9) is the on-wire SBAS id 120, with quality byte 4 (code locked), flag byte
1 (used for navigation), SNR 33, elevation 10, azimuth 300. -/
def svinfoChunk120 : List Nat :=
  [0, 0, 0, 0, 0, 0, 0, 0, 0, 120, 1, 4, 33, 10, 44, 1, 0, 0, 0, 0] ++
    List.replicate 76 0

/-- A device that has just staged `svinfoChunk120` as the first chunk of a
NAV-SVINFO frame (`rx_chunk = 20` reached, empty satellite table). -/
def svinfoDevice : Device :=
  { steadyUblox with
      ubx := { steadyUblox.ubx with message := 0x0130, length := 20 },
      rx_data := svinfoChunk120, rx_count := 20, rx_offset := 0, rx_chunk := 20 }


/-- The device of `demoCycle` paused just before its final LF byte (a
checksum-valid NMEA navigation cycle about to be finalized). -/
def demoPre : Device := (processBytes steadyNmea demoCycle.dropLast).1


/-- A u-blox device at the end of a NAV-SVINFO frame with the `SOLUTION`
bit already set (location published earlier in the cycle). -/
def ubxSatDevice : Device :=
  { steadyUblox with
    seen := 0x00108000,
    ubx := { steadyUblox.ubx with message := 0x0130 } }

/-- A device waiting on the first NMEA checksum character. -/
def c1BadNmea : Device := { steadyNmea with state := GNSS_STATE_NMEA_CHECKSUM_1 }


/-- A device waiting on the second UBX checksum byte with nonzero running
sums (so the trailing bytes cannot both zero out). -/
def c1BadUbx : Device :=
  { steadyUblox with
    state := GNSS_STATE_UBX_CK_B,
    ubx := { steadyUblox.ubx with ck_a := 3, ck_b := 7 } }


/-- A device whose field parser is waiting on the RMC speed field. -/
def rmcSpeedDevice : Device :=
  { steadyNmea with nmea := { steadyNmea.nmea with sequence := NMEA_FIELD_SEQUENCE_RMC_SPEED } }

/-- A device at the second UBX checksum byte of a 4-byte frame whose running
sums are (0, 80) after the first trailing byte was folded in. -/
def c3CkbGood : Device :=
  { steadyUblox with
      state := GNSS_STATE_UBX_CK_B,
      rx_count := 4, rx_offset := 0,
      ubx := { steadyUblox.ubx with ck_a := 0, ck_b := 80, message := 0x0104, length := 4 } }

/-- A device at the second UBX checksum byte of a 100-byte frame (span over
the staging size) whose running sums are (0, 203) after the first trailing
byte. -/
def c5CkbOver : Device :=
  { steadyUblox with
      state := GNSS_STATE_UBX_CK_B,
      rx_count := 100, rx_offset := 0,
      ubx := { steadyUblox.ubx with ck_a := 0, ck_b := 203, message := 0x0107, length := 100 } }

set_option maxRecDepth 1000000

set_option maxHeartbeats 4000000

/-! ## Bitmask and single-handler lemmas -/

lemma hasSolution_iff (s : Nat) : hasSolution s ↔ s.testBit 15 = true := by
  unfold hasSolution
  rw [show (32768 : Nat) = 2 ^ 15 from rfl, Nat.and_two_pow]
  cases h : s.testBit 15 <;> simp [h]

lemma hasSolution_or (s m : Nat) : hasSolution (s ||| m) ↔ (hasSolution s ∨ hasSolution m) := by
  simp [hasSolution_iff, Nat.testBit_lor]

lemma not_hasSolution_or (s m : Nat) (hs : ¬ hasSolution s) (hm : ¬ hasSolution m) :
    ¬ hasSolution (s ||| m) := by
  rw [hasSolution_or]; tauto

lemma not_hasSolution_clear32_sol (s m : Nat) (h : m.testBit 15 = true) :
    ¬ hasSolution (clear32 s m) := by
  simp [hasSolution_iff, clear32, Nat.testBit_land, Nat.testBit_xor, h,
    show Nat.testBit 4294967295 15 = true from by decide]

lemma not_hasSolution_zero : ¬ hasSolution 0 := by decide

lemma mtk_configure_seen (d : Device) :
    (mtk_configure d).1.seen = d.seen ∨ (mtk_configure d).1.seen = 0 := by
  rcases htab : d.table with _ | (_ | ⟨data, rest⟩) <;>
    simp only [mtk_configure, htab, mtk_send] <;> (try split_ifs) <;> simp

lemma ubx_configure_seen (d : Device) :
    (ubx_configure d).1.seen = d.seen ∨ (ubx_configure d).1.seen = 0 := by
  rcases htab : d.table with _ | (_ | ⟨data, rest⟩) <;>
    simp only [ubx_configure, htab, ubx_send] <;> (try split_ifs) <;> simp

lemma nmea_end_switch_sol (d : Device) (h : ¬ hasSolution d.seen) :
    ¬ hasSolution (nmea_end_switch d).1.seen := by
  unfold nmea_end_switch
  by_cases h1 : d.nmea.sequence = NMEA_FIELD_SEQUENCE_GGA_END
  · rw [if_pos h1]; dsimp only; exact not_hasSolution_clear32_sol _ _ (by decide)
  rw [if_neg h1]
  by_cases h2 : d.nmea.sequence = NMEA_FIELD_SEQUENCE_GSA_END
  · rw [if_pos h2]
    dsimp only
    split_ifs <;> dsimp only <;>
      first
        | exact not_hasSolution_clear32_sol _ _ (by decide)
        | exact not_hasSolution_or _ _ h (by decide)
  rw [if_neg h2]
  by_cases h3 : d.nmea.sequence = NMEA_FIELD_SEQUENCE_GST_END
  · rw [if_pos h3]; dsimp only; exact not_hasSolution_clear32_sol _ _ (by decide)
  rw [if_neg h3]
  by_cases h4 : d.nmea.sequence = NMEA_FIELD_SEQUENCE_GSV_END
  · rw [if_pos h4]
    dsimp only
    split_ifs <;> dsimp only <;>
      first
        | exact h
        | exact not_hasSolution_or _ _ h (by decide)
        | exact not_hasSolution_or _ _ (not_hasSolution_or _ _ h (by decide)) (by decide)
  rw [if_neg h4]
  by_cases h5 : d.nmea.sequence = NMEA_FIELD_SEQUENCE_RMC_END
  · rw [if_pos h5]; dsimp only; exact not_hasSolution_clear32_sol _ _ (by decide)
  rw [if_neg h5]
  by_cases h6 : d.nmea.sequence = NMEA_FIELD_SEQUENCE_PMTK001_END
  · rw [if_pos h6]
    split_ifs
    · rcases mtk_configure_seen { d with command := 0xFFFFFFFF } with h' | h' <;> rw [h'] <;>
        first | exact h | exact not_hasSolution_zero
    · exact h
  · rw [if_neg h6]; exact h

lemma mtk_configure_events_send (d : Device) :
    ∀ e ∈ (mtk_configure d).2, ∃ out, e = Event.send out := by
  intro e he
  rcases htab : d.table with _ | (_ | ⟨data, rest⟩) <;>
    simp only [mtk_configure, htab, mtk_send] at he <;>
    (try split_ifs at he) <;> simp at he <;> exact ⟨_, he⟩

lemma ubx_configure_events_aux (d : Device) :
    ∀ e ∈ (ubx_configure d).2,
      e = Event.timerStop ∨ e = Event.timerStart ∨ ∃ out, e = Event.send out := by
  intro e he
  rcases htab : d.table with _ | (_ | ⟨data, rest⟩) <;>
    simp only [ubx_configure, htab, ubx_send] at he <;>
    (try split_ifs at he) <;> simp at he <;> tauto

lemma not_hasSolution_cycle_check (d : Device) (h : ¬ hasSolution d.seen) :
    ¬ hasSolution (ubx_nav_cycle_check d).seen := by
  unfold ubx_nav_cycle_check
  split_ifs <;> (try dsimp only) <;> first | exact not_hasSolution_zero | exact h

lemma ubx_end_switch_sol (d : Device) (h : ¬ hasSolution d.seen) :
    ¬ hasSolution (ubx_end_switch d).1.seen := by
  unfold ubx_end_switch
  by_cases h1 : d.ubx.message >>> 8 = 0x01
  · rw [if_pos h1]
    dsimp only
    split_ifs <;> dsimp only <;>
      first
        | exact not_hasSolution_cycle_check d h
        | exact not_hasSolution_clear32_sol _ _ (by decide)
        | exact not_hasSolution_or _ _ (not_hasSolution_cycle_check d h) (by decide)
  rw [if_neg h1]
  by_cases h2 : d.ubx.message = 0x0500
  · rw [if_pos h2]
    dsimp only
    split_ifs
    · rcases ubx_configure_seen { d with command := 0xFFFFFFFF } with h' | h' <;> rw [h'] <;>
        first | exact h | exact not_hasSolution_zero
    · exact h
  rw [if_neg h2]
  by_cases h3 : d.ubx.message = 0x0501
  · rw [if_pos h3]
    dsimp only
    split_ifs
    · rcases ubx_configure_seen { d with command := 0xFFFFFFFF } with h' | h' <;> rw [h'] <;>
        first | exact h | exact not_hasSolution_zero
    · exact h
  · rw [if_neg h3]; exact h

lemma gnss_location_fn_snd (d : Device) :
    ∃ loc, (gnss_location_fn d).2 = [Event.locationCb loc] := ⟨_, rfl⟩

lemma gnss_location_fn_seen (d : Device) : (gnss_location_fn d).1.seen = d.seen := rfl

lemma hasSolution_sol_const : hasSolution NMEA_SENTENCE_MASK_SOLUTION := by decide

lemma nmea_publish_location_cases (d : Device) :
    nmea_publish_location d = (d, []) ∨
      (∃ loc, (nmea_publish_location d).2 = [Event.locationCb loc]) ∧
        hasSolution (nmea_publish_location d).1.seen := by
  unfold nmea_publish_location
  dsimp only
  split_ifs with hc hs
  all_goals try dsimp only
  all_goals
    first
      | exact Or.inr ⟨gnss_location_fn_snd _, (hasSolution_or _ _).mpr (Or.inr hasSolution_sol_const)⟩
      | exact Or.inl rfl

lemma nmea_publish_satellites_sol (d : Device)
    (hne : (nmea_publish_satellites d).2 ≠ []) : hasSolution d.seen := by
  unfold nmea_publish_satellites at hne
  dsimp only at hne
  split_ifs at hne with hc
  · exact hc.1
  · exact absurd rfl hne

lemma ubx_publish_location_cases (d : Device) :
    ubx_publish_location d = (d, []) ∨
      (∃ loc, (ubx_publish_location d).2 = [Event.locationCb loc]) ∧
        hasSolution (ubx_publish_location d).1.seen := by
  unfold ubx_publish_location
  dsimp only
  split_ifs with hc hs
  all_goals try dsimp only
  all_goals
    first
      | exact Or.inr ⟨gnss_location_fn_snd _, (hasSolution_or _ _).mpr (Or.inr hasSolution_sol_const)⟩
      | exact Or.inl rfl

lemma ubx_publish_satellites_sol (d : Device)
    (hne : (ubx_publish_satellites d).2 ≠ []) : hasSolution d.seen := by
  unfold ubx_publish_satellites at hne
  dsimp only at hne
  split_ifs at hne with hc
  · exact hc.1
  · exact absurd rfl hne

lemma filter_nil_of_false {P : Event → Bool} {l : List Event}
    (h : ∀ e ∈ l, P e = false) : l.filter P = [] :=
  List.filter_eq_nil.mpr (by intro a ha; simp [h a ha])

lemma ne_nil_of_filter {P : Event → Bool} {l : List Event}
    (h : l.filter P ≠ []) : l ≠ [] := by
  intro h'; subst h'; simp at h

lemma nmea_end_switch_events (d : Device) :
    ∀ e ∈ (nmea_end_switch d).2, ∃ out, e = Event.send out := by
  intro e he
  unfold nmea_end_switch at he
  dsimp only at he
  split_ifs at he <;> (try dsimp only at he) <;>
    first
      | exact mtk_configure_events_send _ e he
      | simp at he

lemma ubx_end_switch_events (d : Device) :
    ∀ e ∈ (ubx_end_switch d).2,
      e = Event.timerStop ∨ e = Event.timerStart ∨ ∃ out, e = Event.send out := by
  intro e he
  unfold ubx_end_switch at he
  dsimp only at he
  split_ifs at he <;> (try dsimp only at he) <;>
    first
      | exact ubx_configure_events_aux _ e he
      | simp at he

lemma nmea_end_sentence_interlock (d : Device)
    (hne : (nmea_end_sentence d).2.filter isSatellitesEv ≠ []) :
    (nmea_end_sentence d).2.filter isLocationEv ≠ [] ∨ hasSolution d.seen := by
  have hsw : (nmea_end_switch d).2.filter isSatellitesEv = [] := by
    refine filter_nil_of_false ?_
    intro e he
    obtain ⟨out, rfl⟩ := nmea_end_switch_events d e he
    rfl
  have hswl : (nmea_end_switch d).2.filter isLocationEv = [] := by
    refine filter_nil_of_false ?_
    intro e he
    obtain ⟨out, rfl⟩ := nmea_end_switch_events d e he
    rfl
  unfold nmea_end_sentence at hne ⊢
  dsimp only at hne ⊢
  split_ifs at hne ⊢ with hinit
  · rw [List.filter_append, List.filter_append] at hne ⊢
    rw [hsw] at hne
    rcases nmea_publish_location_cases
        { (nmea_end_switch d).1 with
            nmea := { (nmea_end_switch d).1.nmea with
              sequence := NMEA_FIELD_SEQUENCE_START } } with heq | ⟨⟨loc, hl⟩, hsol2⟩
    · rw [heq] at hne ⊢
      dsimp only at hne
      simp only [List.filter_nil, List.nil_append] at hne
      have h3 := nmea_publish_satellites_sol _ (ne_nil_of_filter hne)
      right
      by_contra hpre
      exact nmea_end_switch_sol d hpre h3
    · left
      rw [hl]
      simp [isLocationEv]
  · exact absurd hne (by simp [hsw])



lemma ubx_end_message_interlock (d : Device)
    (hne : (ubx_end_message d).2.filter isSatellitesEv ≠ []) :
    (ubx_end_message d).2.filter isLocationEv ≠ [] ∨ hasSolution d.seen := by
  have hsw : (ubx_end_switch d).2.filter isSatellitesEv = [] := by
    refine filter_nil_of_false ?_
    intro e he
    rcases ubx_end_switch_events d e he with rfl | rfl | ⟨out, rfl⟩ <;> rfl
  unfold ubx_end_message at hne ⊢
  dsimp only at hne ⊢
  split_ifs at hne ⊢ with hinit
  · rw [List.filter_append, List.filter_append] at hne ⊢
    rw [hsw] at hne
    rcases ubx_publish_location_cases (ubx_end_switch d).1 with heq | ⟨⟨loc, hl⟩, hsol2⟩
    · rw [heq] at hne ⊢
      dsimp only at hne
      simp only [List.filter_nil, List.nil_append] at hne
      have h3 := ubx_publish_satellites_sol _ (ne_nil_of_filter hne)
      right
      by_contra hpre
      exact ubx_end_switch_sol d hpre h3
    · left
      rw [hl]
      simp [isLocationEv]
  · exact absurd hne (by simp [hsw])


/-! ## Framing-run and event-trace lemmas -/

lemma processBytes_append (xs ys : List Nat) : ∀ d : Device,
    processBytes d (xs ++ ys) =
      ((processBytes (processBytes d xs).1 ys).1,
        (processBytes d xs).2 ++ (processBytes (processBytes d xs).1 ys).2) := by
  induction xs with
  | nil => intro d; simp [processBytes]
  | cons x xs ih =>
    intro d
    show processBytes d (x :: (xs ++ ys)) = _
    simp only [processBytes]
    rw [ih]
    simp [List.append_assoc]

lemma nmea_payload_step (d : Device) (b : Nat)
    (hs : d.state = GNSS_STATE_NMEA_PAYLOAD)
    (h20 : 0x20 ≤ b) (h7f : b ≤ 0x7f) (h42 : b ≠ 42) (h44 : b ≠ 44) (h36 : b ≠ 36)
    (hcnt : d.rx_count < GNSS_RX_DATA_SIZE) :
    gnss_receive_step d b =
      ({ d with
          checksum := d.checksum ^^^ b,
          rx_data := d.rx_data.set d.rx_count b,
          rx_count := d.rx_count + 1 }, [Event.storeRx d.rx_count b]) := by
  have hmod : b % 256 = b := Nat.mod_eq_of_lt (by omega)
  have hge : ¬ d.rx_count ≥ GNSS_RX_DATA_SIZE := by omega
  simp [gnss_receive_step, hs, hmod, hge, h20, h7f, h42, h44, h36,
    GNSS_STATE_START, GNSS_STATE_NMEA_PAYLOAD, GNSS_STATE_NMEA_END_LF]

lemma nmea_payload_step_overflow (d : Device) (b : Nat)
    (hs : d.state = GNSS_STATE_NMEA_PAYLOAD)
    (h20 : 0x20 ≤ b) (h7f : b ≤ 0x7f) (h42 : b ≠ 42) (h36 : b ≠ 36)
    (hcnt : d.rx_count ≥ GNSS_RX_DATA_SIZE) :
    gnss_receive_step d b = ({ d with state := GNSS_STATE_START }, []) := by
  have hmod : b % 256 = b := Nat.mod_eq_of_lt (by omega)
  simp [gnss_receive_step, hs, hmod, hcnt, h20, h7f, h42, h36,
    GNSS_STATE_START, GNSS_STATE_NMEA_PAYLOAD, GNSS_STATE_NMEA_END_LF]

lemma nmea_payload_run (P : List Nat) : ∀ d : Device,
    d.state = GNSS_STATE_NMEA_PAYLOAD →
    (∀ b ∈ P, 0x20 ≤ b ∧ b ≤ 0x7f ∧ b ≠ 42 ∧ b ≠ 44 ∧ b ≠ 36) →
    d.rx_count + P.length ≤ GNSS_RX_DATA_SIZE →
    (processBytes d P).1.state = GNSS_STATE_NMEA_PAYLOAD ∧
    (processBytes d P).1.rx_count = d.rx_count + P.length ∧
    (processBytes d P).1.checksum = P.foldl (fun x c => x ^^^ c % 256) d.checksum ∧
    (processBytes d P).1.init = d.init ∧
    (∀ e ∈ (processBytes d P).2, ∃ i v, e = Event.storeRx i v) := by
  induction P with
  | nil =>
    intro d hs hb hlen
    exact ⟨hs, rfl, rfl, rfl, by intro e he; simp [processBytes] at he⟩
  | cons b rest ih =>
    intro d hs hb hlen
    obtain ⟨hb20, hb7f, hb42, hb44, hb36⟩ := hb b (List.mem_cons_self b rest)
    have hcnt : d.rx_count < GNSS_RX_DATA_SIZE := by
      simp only [List.length_cons] at hlen
      omega
    have hmod : b % 256 = b := Nat.mod_eq_of_lt (by omega)
    have hstep := nmea_payload_step d b hs hb20 hb7f hb42 hb44 hb36 hcnt
    simp only [processBytes, hstep]
    obtain ⟨ih1, ih2, ih3, ih4, ih5⟩ :=
      ih { d with
            checksum := d.checksum ^^^ b,
            rx_data := d.rx_data.set d.rx_count b,
            rx_count := d.rx_count + 1 }
        hs (fun x hx => hb x (List.mem_cons_of_mem _ hx))
        (by simp only [List.length_cons] at hlen ⊢; omega)
    refine ⟨ih1, ?_, ?_, ih4, ?_⟩
    · rw [ih2]
      simp only [List.length_cons]
      omega
    · rw [ih3]
      simp only [List.foldl_cons, hmod]
    · intro e he
      rcases List.mem_append.mp he with he | he
      · rw [List.mem_singleton] at he
        exact ⟨_, _, he⟩
      · exact ih5 e he

lemma ubx_payload_step (d : Device) (b : Nat)
    (hs : d.state = GNSS_STATE_UBX_PAYLOAD) (hb : b < 256)
    (hcnt : d.rx_count + 1 < 65536) (hchunk : d.rx_count + 1 ≠ d.rx_chunk)
    (hfin : d.rx_count + 1 ≠ d.ubx.length) :
    gnss_receive_step d b =
      ({ d with
          ubx := { d.ubx with
            ck_a := (d.ubx.ck_a + b) % 256,
            ck_b := (d.ubx.ck_b + (d.ubx.ck_a + b) % 256) % 256 },
          rx_data := if d.rx_count - d.rx_offset < GNSS_RX_DATA_SIZE then
              d.rx_data.set (d.rx_count - d.rx_offset) b
            else d.rx_data,
          rx_count := d.rx_count + 1 },
        if d.rx_count - d.rx_offset < GNSS_RX_DATA_SIZE then
          [Event.storeRx (d.rx_count - d.rx_offset) b]
        else []) := by
  have hmod : b % 256 = b := Nat.mod_eq_of_lt hb
  have hmod2 : (d.rx_count + 1) % 65536 = d.rx_count + 1 := Nat.mod_eq_of_lt hcnt
  by_cases hspan : d.rx_count - d.rx_offset < GNSS_RX_DATA_SIZE
  · simp [gnss_receive_step, hs, hmod, hmod2, hspan, hchunk, hfin,
      GNSS_STATE_START, GNSS_STATE_NMEA_PAYLOAD, GNSS_STATE_NMEA_CHECKSUM_1, GNSS_STATE_NMEA_CHECKSUM_2, GNSS_STATE_NMEA_END_CR, GNSS_STATE_NMEA_END_LF, GNSS_STATE_UBX_SYNC_2, GNSS_STATE_UBX_MESSAGE_1, GNSS_STATE_UBX_MESSAGE_2, GNSS_STATE_UBX_LENGTH_1, GNSS_STATE_UBX_LENGTH_2, GNSS_STATE_UBX_PAYLOAD, GNSS_STATE_UBX_CK_A, GNSS_STATE_UBX_CK_B]
  · simp [gnss_receive_step, hs, hmod, hmod2, hspan, hchunk, hfin,
      GNSS_STATE_START, GNSS_STATE_NMEA_PAYLOAD, GNSS_STATE_NMEA_CHECKSUM_1, GNSS_STATE_NMEA_CHECKSUM_2, GNSS_STATE_NMEA_END_CR, GNSS_STATE_NMEA_END_LF, GNSS_STATE_UBX_SYNC_2, GNSS_STATE_UBX_MESSAGE_1, GNSS_STATE_UBX_MESSAGE_2, GNSS_STATE_UBX_LENGTH_1, GNSS_STATE_UBX_LENGTH_2, GNSS_STATE_UBX_PAYLOAD, GNSS_STATE_UBX_CK_A, GNSS_STATE_UBX_CK_B]

lemma ubx_payload_step_fin (d : Device) (b : Nat)
    (hs : d.state = GNSS_STATE_UBX_PAYLOAD) (hb : b < 256)
    (hcnt : d.rx_count + 1 < 65536) (hchunk : d.rx_count + 1 ≠ d.rx_chunk)
    (hfin : d.rx_count + 1 = d.ubx.length) :
    gnss_receive_step d b =
      ({ d with
          ubx := { d.ubx with
            ck_a := (d.ubx.ck_a + b) % 256,
            ck_b := (d.ubx.ck_b + (d.ubx.ck_a + b) % 256) % 256 },
          rx_data := if d.rx_count - d.rx_offset < GNSS_RX_DATA_SIZE then
              d.rx_data.set (d.rx_count - d.rx_offset) b
            else d.rx_data,
          rx_count := d.rx_count + 1,
          state := GNSS_STATE_UBX_CK_A },
        if d.rx_count - d.rx_offset < GNSS_RX_DATA_SIZE then
          [Event.storeRx (d.rx_count - d.rx_offset) b]
        else []) := by
  have hmod : b % 256 = b := Nat.mod_eq_of_lt hb
  have hmod2 : (d.rx_count + 1) % 65536 = d.rx_count + 1 := Nat.mod_eq_of_lt hcnt
  by_cases hspan : d.rx_count - d.rx_offset < GNSS_RX_DATA_SIZE
  · simp [gnss_receive_step, hs, hmod, hmod2, hspan, hchunk, hfin.symm,
      GNSS_STATE_START, GNSS_STATE_NMEA_PAYLOAD, GNSS_STATE_NMEA_CHECKSUM_1, GNSS_STATE_NMEA_CHECKSUM_2, GNSS_STATE_NMEA_END_CR, GNSS_STATE_NMEA_END_LF, GNSS_STATE_UBX_SYNC_2, GNSS_STATE_UBX_MESSAGE_1, GNSS_STATE_UBX_MESSAGE_2, GNSS_STATE_UBX_LENGTH_1, GNSS_STATE_UBX_LENGTH_2, GNSS_STATE_UBX_PAYLOAD, GNSS_STATE_UBX_CK_A, GNSS_STATE_UBX_CK_B]
  · simp [gnss_receive_step, hs, hmod, hmod2, hspan, hchunk, hfin.symm,
      GNSS_STATE_START, GNSS_STATE_NMEA_PAYLOAD, GNSS_STATE_NMEA_CHECKSUM_1, GNSS_STATE_NMEA_CHECKSUM_2, GNSS_STATE_NMEA_END_CR, GNSS_STATE_NMEA_END_LF, GNSS_STATE_UBX_SYNC_2, GNSS_STATE_UBX_MESSAGE_1, GNSS_STATE_UBX_MESSAGE_2, GNSS_STATE_UBX_LENGTH_1, GNSS_STATE_UBX_LENGTH_2, GNSS_STATE_UBX_PAYLOAD, GNSS_STATE_UBX_CK_A, GNSS_STATE_UBX_CK_B]

lemma ubx_ck_a_step (d : Device) (b : Nat)
    (hs : d.state = GNSS_STATE_UBX_CK_A) (hb : b < 256) :
    gnss_receive_step d b =
      ({ d with
          ubx := { d.ubx with ck_a := d.ubx.ck_a ^^^ b },
          state := GNSS_STATE_UBX_CK_B }, []) := by
  have hmod : b % 256 = b := Nat.mod_eq_of_lt hb
  simp [gnss_receive_step, hs, hmod,
    GNSS_STATE_START, GNSS_STATE_NMEA_PAYLOAD, GNSS_STATE_NMEA_CHECKSUM_1, GNSS_STATE_NMEA_CHECKSUM_2, GNSS_STATE_NMEA_END_CR, GNSS_STATE_NMEA_END_LF, GNSS_STATE_UBX_SYNC_2, GNSS_STATE_UBX_MESSAGE_1, GNSS_STATE_UBX_MESSAGE_2, GNSS_STATE_UBX_LENGTH_1, GNSS_STATE_UBX_LENGTH_2, GNSS_STATE_UBX_PAYLOAD, GNSS_STATE_UBX_CK_A, GNSS_STATE_UBX_CK_B]

lemma ubx_ck_b_accept (d : Device) (b : Nat)
    (hs : d.state = GNSS_STATE_UBX_CK_B) (hinit : d.init = GNSS_INIT_DONE) :
    (Event.endMessage d.ubx.message ∈ (gnss_receive_step d b).2 ↔
      (d.ubx.ck_a = 0 ∧ d.ubx.ck_b = b % 256 ∧
        d.rx_count - d.rx_offset ≤ GNSS_RX_DATA_SIZE)) ∧
    (gnss_receive_step d b).1.state = GNSS_STATE_START := by
  have hnocfg : ¬ (d.init ≠ GNSS_INIT_DONE ∧ d.init = GNSS_INIT_UBX_BAUD_RATE) := by
    rintro ⟨h1, -⟩
    exact h1 hinit
  simp only [gnss_receive_step]
  rw [if_neg (by rintro ⟨h1, -⟩; rw [hs] at h1; revert h1; decide),
    if_neg (by rw [hs]; decide), if_neg (by rw [hs]; decide), if_neg (by rw [hs]; decide),
    if_neg (by rw [hs]; decide), if_neg (by rw [hs]; decide), if_neg (by rw [hs]; decide),
    if_neg (by rw [hs]; decide), if_neg (by rw [hs]; decide), if_neg (by rw [hs]; decide),
    if_neg (by rw [hs]; decide), if_neg (by rw [hs]; decide), if_neg (by rw [hs]; decide),
    if_neg (by rw [hs]; decide), if_pos hs]
  try dsimp only
  rw [if_neg hnocfg]
  by_cases hck : d.ubx.ck_a = 0 ∧ d.ubx.ck_b ^^^ b % 256 = 0
  · rw [if_pos hck]
    by_cases hspan : d.rx_count - d.rx_offset ≤ GNSS_RX_DATA_SIZE
    · rw [if_pos hspan]
      refine ⟨?_, rfl⟩
      constructor
      · intro h
        exact ⟨hck.1, (Nat.xor_eq_zero).mp hck.2, hspan⟩
      · intro h
        exact List.mem_append.mpr (Or.inr (List.mem_cons_self _ _))
    · rw [if_neg hspan]
      refine ⟨?_, rfl⟩
      constructor
      · intro h
        simp at h
      · rintro ⟨-, -, h3⟩
        exact absurd h3 hspan
  · rw [if_neg hck]
    refine ⟨?_, rfl⟩
    constructor
    · intro h
      simp at h
    · rintro ⟨h1, h2, -⟩
      exact (hck ⟨h1, by rw [h2]; simp⟩).elim

lemma ubx_payload_run (P : List Nat) : ∀ d : Device,
    d.state = GNSS_STATE_UBX_PAYLOAD →
    (∀ b ∈ P, b < 256) →
    d.rx_chunk = 65535 →
    d.rx_count + P.length < 65535 →
    d.rx_count + P.length < d.ubx.length →
    (processBytes d P).1.ubx.ck_a =
      (P.foldl (fun p c =>
        let a := (p.1 + c % 256) % 256
        (a, (p.2 + a) % 256)) (d.ubx.ck_a, d.ubx.ck_b)).1 ∧
    (processBytes d P).1.ubx.ck_b =
      (P.foldl (fun p c =>
        let a := (p.1 + c % 256) % 256
        (a, (p.2 + a) % 256)) (d.ubx.ck_a, d.ubx.ck_b)).2 ∧
    (processBytes d P).1.rx_count = d.rx_count + P.length ∧
    (processBytes d P).1.rx_offset = d.rx_offset ∧
    (processBytes d P).1.ubx.length = d.ubx.length ∧
    (processBytes d P).1.ubx.message = d.ubx.message ∧
    (processBytes d P).1.init = d.init ∧
    (processBytes d P).1.rx_chunk = 65535 ∧
    (processBytes d P).1.state = GNSS_STATE_UBX_PAYLOAD ∧
    (∀ e ∈ (processBytes d P).2, ∃ i v, e = Event.storeRx i v) := by
  induction P with
  | nil =>
    intro d hs hb hchunk hcnt hlen
    exact ⟨rfl, rfl, rfl, rfl, rfl, rfl, rfl, hchunk, hs,
      by intro e he; simp [processBytes] at he⟩
  | cons b rest ih =>
    intro d hs hb hchunk hcnt hlen
    have hb0 : b < 256 := hb b (List.mem_cons_self b rest)
    have hlen' : rest.length + 1 = (b :: rest).length := rfl
    have hstep := ubx_payload_step d b hs hb0
      (by simp only [List.length_cons] at hcnt; omega)
      (by rw [hchunk]; simp only [List.length_cons] at hcnt; omega)
      (by simp only [List.length_cons] at hlen; omega)
    simp only [processBytes, hstep]
    obtain ⟨ih1, ih2, ih3, ih4, ih5, ih6, ih7, ih8, ih9, ih10⟩ :=
      ih { d with
            ubx := { d.ubx with
              ck_a := (d.ubx.ck_a + b) % 256,
              ck_b := (d.ubx.ck_b + (d.ubx.ck_a + b) % 256) % 256 },
            rx_data := if d.rx_count - d.rx_offset < GNSS_RX_DATA_SIZE then
                d.rx_data.set (d.rx_count - d.rx_offset) b
              else d.rx_data,
            rx_count := d.rx_count + 1 }
        hs (fun x hx => hb x (List.mem_cons_of_mem _ hx)) hchunk
        (by simp only [List.length_cons] at hcnt ⊢; omega)
        (by simp only [List.length_cons] at hlen ⊢; omega)
    have hmod : b % 256 = b := Nat.mod_eq_of_lt hb0
    refine ⟨?_, ?_, ?_, ih4, ih5, ih6, ih7, ih8, ih9, ?_⟩
    · rw [ih1]
      simp only [List.foldl_cons, hmod]
    · rw [ih2]
      simp only [List.foldl_cons, hmod]
    · rw [ih3]
      simp only [List.length_cons]
      omega
    · intro e he
      rcases List.mem_append.mp he with he | he
      · by_cases hspan : d.rx_count - d.rx_offset < GNSS_RX_DATA_SIZE
        · rw [if_pos hspan, List.mem_singleton] at he
          exact ⟨_, _, he⟩
        · rw [if_neg hspan] at he
          simp at he
      · exact ih10 e he

lemma gnss_satellites_fn_satcb (d : Device) (c : Nat) (s : List SatInfo)
    (h : Event.satellitesCb c s ∈ (gnss_satellites_fn d).2) :
    c ≤ GNSS_SATELLITES_COUNT_MAX ∧ s.length ≤ GNSS_SATELLITES_COUNT_MAX := by
  unfold gnss_satellites_fn at h
  dsimp only at h
  rw [List.mem_singleton] at h
  obtain ⟨h1, h2⟩ := Event.satellitesCb.inj h
  constructor
  · rw [h1]
    split_ifs with hgt
    · exact le_refl _
    · omega
  · rw [h2]
    refine le_trans (List.length_take_le _ _) ?_
    split_ifs with hgt
    · exact le_refl _
    · omega

lemma nmea_publish_satellites_satcb (d : Device) (c : Nat) (s : List SatInfo)
    (h : Event.satellitesCb c s ∈ (nmea_publish_satellites d).2) :
    c ≤ GNSS_SATELLITES_COUNT_MAX ∧ s.length ≤ GNSS_SATELLITES_COUNT_MAX := by
  unfold nmea_publish_satellites at h
  dsimp only at h
  split_ifs at h with hc
  · exact gnss_satellites_fn_satcb _ _ _ h
  · simp at h

lemma ubx_publish_satellites_satcb (d : Device) (c : Nat) (s : List SatInfo)
    (h : Event.satellitesCb c s ∈ (ubx_publish_satellites d).2) :
    c ≤ GNSS_SATELLITES_COUNT_MAX ∧ s.length ≤ GNSS_SATELLITES_COUNT_MAX := by
  unfold ubx_publish_satellites at h
  dsimp only at h
  split_ifs at h with hc
  · exact gnss_satellites_fn_satcb _ _ _ h
  · simp at h

lemma nmea_end_sentence_satcb (d : Device) (c : Nat) (s : List SatInfo)
    (h : Event.satellitesCb c s ∈ (nmea_end_sentence d).2) :
    c ≤ GNSS_SATELLITES_COUNT_MAX ∧ s.length ≤ GNSS_SATELLITES_COUNT_MAX := by
  unfold nmea_end_sentence at h
  dsimp only at h
  split_ifs at h with hinit
  · rcases List.mem_append.mp h with h | h
    · rcases List.mem_append.mp h with h | h
      · rcases nmea_end_switch_events _ _ h with ⟨out, he⟩
        simp at he
      · rcases nmea_publish_location_cases
            { (nmea_end_switch d).1 with nmea :=
              { (nmea_end_switch d).1.nmea with sequence := NMEA_FIELD_SEQUENCE_START } } with
          heq | ⟨⟨loc, hl⟩, -⟩
        · rw [heq] at h
          simp at h
        · rw [hl] at h
          simp at h
    · exact nmea_publish_satellites_satcb _ _ _ h
  · rcases nmea_end_switch_events _ _ h with ⟨out, he⟩
    simp at he

lemma ubx_end_message_satcb (d : Device) (c : Nat) (s : List SatInfo)
    (h : Event.satellitesCb c s ∈ (ubx_end_message d).2) :
    c ≤ GNSS_SATELLITES_COUNT_MAX ∧ s.length ≤ GNSS_SATELLITES_COUNT_MAX := by
  unfold ubx_end_message at h
  dsimp only at h
  split_ifs at h with hinit
  · rcases List.mem_append.mp h with h | h
    · rcases List.mem_append.mp h with h | h
      · rcases ubx_end_switch_events _ _ h with he | he | ⟨out, he⟩ <;> simp at he
      · rcases ubx_publish_location_cases (ubx_end_switch d).1 with heq | ⟨⟨loc, hl⟩, -⟩
        · rw [heq] at h
          simp at h
        · rw [hl] at h
          simp at h
    · exact ubx_publish_satellites_satcb _ _ _ h
  · rcases ubx_end_switch_events _ _ h with he | he | ⟨out, he⟩ <;> simp at he

lemma gnss_receive_step_satcb (d : Device) (b : Nat) (c : Nat) (s : List SatInfo)
    (h : Event.satellitesCb c s ∈ (gnss_receive_step d b).2) :
    c ≤ GNSS_SATELLITES_COUNT_MAX ∧ s.length ≤ GNSS_SATELLITES_COUNT_MAX := by
  simp only [gnss_receive_step] at h
  by_cases hq : d.state ≤ GNSS_STATE_NMEA_END_LF ∧ b % 256 = 36
  · rw [if_pos hq] at h
    simp at h
  rw [if_neg hq] at h
  by_cases h0 : d.state = GNSS_STATE_START
  · rw [if_pos h0] at h
    simp at h
  rw [if_neg h0] at h
  by_cases h1 : d.state = GNSS_STATE_NMEA_PAYLOAD
  · rw [if_pos h1] at h
    repeat' split at h
    all_goals simp at h
  rw [if_neg h1] at h
  by_cases h2 : d.state = GNSS_STATE_NMEA_CHECKSUM_1
  · rw [if_pos h2] at h
    repeat' split at h
    all_goals simp at h
  rw [if_neg h2] at h
  by_cases h3 : d.state = GNSS_STATE_NMEA_CHECKSUM_2
  · rw [if_pos h3] at h
    repeat' split at h
    all_goals simp at h
  rw [if_neg h3] at h
  by_cases h4 : d.state = GNSS_STATE_NMEA_END_CR
  · rw [if_pos h4] at h
    repeat' split at h
    all_goals simp at h
  rw [if_neg h4] at h
  by_cases h5 : d.state = GNSS_STATE_NMEA_END_LF
  · rw [if_pos h5] at h
    by_cases hc : b % 256 = 10
    · rw [if_pos hc] at h
      try dsimp only at h
      rcases List.mem_append.mp h with h | h
      · repeat' split at h
        all_goals
          first
          | simp at h
          | (rcases mtk_configure_events_send _ _ h with ⟨out, he⟩; simp at he)
          | (rcases ubx_configure_events_aux _ _ h with he | he | ⟨out, he⟩ <;> simp at he)
      · rcases List.mem_cons.mp h with he | h
        · simp at he
        · exact nmea_end_sentence_satcb _ _ _ h
    · rw [if_neg hc] at h
      simp at h
  rw [if_neg h5] at h
  by_cases h6 : d.state = GNSS_STATE_UBX_SYNC_2
  · rw [if_pos h6] at h
    repeat' split at h
    all_goals simp at h
  rw [if_neg h6] at h
  by_cases h7 : d.state = GNSS_STATE_UBX_MESSAGE_1
  · rw [if_pos h7] at h
    simp at h
  rw [if_neg h7] at h
  by_cases h8 : d.state = GNSS_STATE_UBX_MESSAGE_2
  · rw [if_pos h8] at h
    simp at h
  rw [if_neg h8] at h
  by_cases h9 : d.state = GNSS_STATE_UBX_LENGTH_1
  · rw [if_pos h9] at h
    simp at h
  rw [if_neg h9] at h
  by_cases h10 : d.state = GNSS_STATE_UBX_LENGTH_2
  · rw [if_pos h10] at h
    repeat' split at h
    all_goals simp at h
  rw [if_neg h10] at h
  by_cases h11 : d.state = GNSS_STATE_UBX_PAYLOAD
  · rw [if_pos h11] at h
    repeat' split at h
    all_goals simp at h
  rw [if_neg h11] at h
  by_cases h12 : d.state = GNSS_STATE_UBX_CK_A
  · rw [if_pos h12] at h
    simp at h
  rw [if_neg h12] at h
  by_cases h13 : d.state = GNSS_STATE_UBX_CK_B
  · rw [if_pos h13] at h
    try dsimp only at h
    by_cases hck : d.ubx.ck_a = 0 ∧ d.ubx.ck_b ^^^ b % 256 = 0
    · rw [if_pos hck] at h
      try dsimp only at h
      repeat' split at h
      all_goals
        first
        | (rcases ubx_configure_events_aux _ _ h with he | he | ⟨out, he⟩ <;> simp at he)
        | (rcases List.mem_append.mp h with h | h
           <;> first
             | (rcases ubx_configure_events_aux _ _ h with he | he | ⟨out, he⟩ <;> simp at he)
             | (rcases List.mem_cons.mp h with he | h
                <;> first
                  | simp at he
                  | exact ubx_end_message_satcb _ _ _ h)
             | simp at h)
        | simp at h
    · rw [if_neg hck] at h
      simp at h
  rw [if_neg h13] at h
  simp at h

lemma processBytes_satcb (bs : List Nat) :
    ∀ (d : Device) (c : Nat) (s : List SatInfo),
      Event.satellitesCb c s ∈ (processBytes d bs).2 →
      c ≤ GNSS_SATELLITES_COUNT_MAX ∧ s.length ≤ GNSS_SATELLITES_COUNT_MAX := by
  induction bs with
  | nil =>
    intro d c s h
    simp [processBytes] at h
  | cons b rest ih =>
    intro d c s h
    simp only [processBytes] at h
    rcases List.mem_append.mp h with h | h
    · exact gnss_receive_step_satcb _ _ _ _ h
    · exact ih _ _ _ h

/-! ## Claim C2 -/

/-- C2, counterexample: a 97-byte NMEA payload that contains a comma does
not overflow the staging buffer — after `$` and all 97 payload bytes the
framing machine is still in the payload state (not Start), no callback has
fired, and completing the sentence with its correct checksum and CR/LF
delivers it to the sentence finalizer.  The 96-byte bound applies to each
comma-separated field, not to the payload as a whole. -/
theorem c2_counterexample :
    commaPayload97.length = 97 ∧
    (processBytes steadyNmea (36 :: commaPayload97)).1.state = GNSS_STATE_NMEA_PAYLOAD ∧
    (processBytes steadyNmea (36 :: commaPayload97)).2.filter isCallbackEv = [] ∧
    (processBytes steadyNmea
      (36 :: commaPayload97 ++ [42, 50, 70, 13, 10])).2.filter isEndSentenceEv =
      [Event.endSentence] := by
  refine ⟨by decide, by decide, by decide, by decide⟩


/-- C2, amended: the 96-byte staging limit is a per-field limit.  A
comma-free field of exactly 96 printable bytes is consumed with the machine
still in the payload state and the full count staged, firing nothing; a
97th comma-free byte aborts the frame silently back to Start with no
callback and no sentence delivery; and a sentence whose single field is
exactly 96 bytes long is accepted through to the LF, invoking the sentence
finalizer. -/
theorem c2_field_limit :
    (∀ (d : Device) (P : List Nat),
        d.state = GNSS_STATE_NMEA_PAYLOAD → d.rx_count = 0 →
        (∀ b ∈ P, 0x20 ≤ b ∧ b ≤ 0x7f ∧ b ≠ 42 ∧ b ≠ 44 ∧ b ≠ 36) →
        P.length = GNSS_RX_DATA_SIZE →
        (processBytes d P).1.state = GNSS_STATE_NMEA_PAYLOAD ∧
        (processBytes d P).1.rx_count = GNSS_RX_DATA_SIZE ∧
        (processBytes d P).2.filter isCallbackEv = [] ∧
        (processBytes d P).2.filter isEndSentenceEv = []) ∧
    (∀ (d : Device) (P : List Nat) (b : Nat),
        d.state = GNSS_STATE_NMEA_PAYLOAD → d.rx_count = 0 →
        (∀ x ∈ P, 0x20 ≤ x ∧ x ≤ 0x7f ∧ x ≠ 42 ∧ x ≠ 44 ∧ x ≠ 36) →
        P.length = GNSS_RX_DATA_SIZE →
        0x20 ≤ b → b ≤ 0x7f → b ≠ 42 → b ≠ 36 →
        (processBytes d (P ++ [b])).1.state = GNSS_STATE_START ∧
        (processBytes d (P ++ [b])).2.filter
          (fun e => isCallbackEv e || isEndSentenceEv e) = []) ∧
    (processBytes steadyNmea
        (36 :: (List.replicate 96 65 ++ [42, 48, 48, 13, 10]))).2.filter isEndSentenceEv =
      [Event.endSentence] ∧
    (processBytes steadyNmea
        (36 :: (List.replicate 96 65 ++ [42, 48, 48, 13, 10]))).1.state =
      GNSS_STATE_START := by
  have hrunwrap : ∀ (d : Device) (P : List Nat),
      d.state = GNSS_STATE_NMEA_PAYLOAD → d.rx_count = 0 →
      (∀ b ∈ P, 0x20 ≤ b ∧ b ≤ 0x7f ∧ b ≠ 42 ∧ b ≠ 44 ∧ b ≠ 36) →
      P.length = GNSS_RX_DATA_SIZE →
      (processBytes d P).1.state = GNSS_STATE_NMEA_PAYLOAD ∧
      (processBytes d P).1.rx_count = GNSS_RX_DATA_SIZE ∧
      (∀ e ∈ (processBytes d P).2, ∃ i v, e = Event.storeRx i v) := by
    intro d P hs h0 hb hlen
    obtain ⟨r1, r2, r3, r4, r5⟩ := nmea_payload_run P d hs hb (by omega)
    exact ⟨r1, by rw [r2, h0, hlen]; omega, r5⟩
  refine ⟨?_, ?_, by decide, by decide⟩
  · intro d P hs h0 hb hlen
    obtain ⟨r1, r2, r5⟩ := hrunwrap d P hs h0 hb hlen
    refine ⟨r1, r2, ?_, ?_⟩
    · refine List.filter_eq_nil.mpr ?_
      intro e he
      obtain ⟨i, v, rfl⟩ := r5 e he
      simp [isCallbackEv, isLocationEv, isSatellitesEv]
    · refine List.filter_eq_nil.mpr ?_
      intro e he
      obtain ⟨i, v, rfl⟩ := r5 e he
      simp [isEndSentenceEv]
  · intro d P b hs h0 hb hlen hb20 hb7f hb42 hb36
    obtain ⟨r1, r2, r5⟩ := hrunwrap d P hs h0 hb hlen
    have hover := nmea_payload_step_overflow (processBytes d P).1 b r1 hb20 hb7f hb42 hb36
      (by rw [r2])
    rw [processBytes_append]
    constructor
    · simp only [processBytes, hover]
    · simp only [processBytes, hover]
      rw [List.filter_append]
      have : (processBytes d P).2.filter (fun e => isCallbackEv e || isEndSentenceEv e) = [] := by
        refine List.filter_eq_nil.mpr ?_
        intro e he
        obtain ⟨i, v, rfl⟩ := r5 e he
        simp [isCallbackEv, isLocationEv, isSatellitesEv, isEndSentenceEv]
      rw [this]
      rfl

theorem c2_witness :
    (processBytes (processBytes steadyNmea [36]).1 (List.replicate 96 65)).1.state =
      GNSS_STATE_NMEA_PAYLOAD ∧
    (processBytes (processBytes steadyNmea [36]).1 (List.replicate 96 65)).1.rx_count =
      GNSS_RX_DATA_SIZE ∧
    (processBytes (processBytes steadyNmea [36]).1
      (List.replicate 96 65)).2.filter isCallbackEv = [] ∧
    (processBytes (processBytes steadyNmea [36]).1
      (List.replicate 96 65)).2.filter isEndSentenceEv = [] ∧
    (processBytes (processBytes steadyNmea [36]).1
      (List.replicate 96 65 ++ [66])).1.state = GNSS_STATE_START := by
  refine ⟨(c2_field_limit.1 _ _ (by decide) (by decide) (by decide) (by decide)).1,
    (c2_field_limit.1 _ _ (by decide) (by decide) (by decide) (by decide)).2.1,
    (c2_field_limit.1 _ _ (by decide) (by decide) (by decide) (by decide)).2.2.1,
    (c2_field_limit.1 _ _ (by decide) (by decide) (by decide) (by decide)).2.2.2,
    (c2_field_limit.2.1 _ _ 66 (by decide) (by decide) (by decide) (by decide) (by decide)
      (by decide) (by decide) (by decide)).1⟩

/-! ## Claim C3 -/

/-- C3, counterexample: a binary frame with class 0x01, id 0x04 and declared
payload length 97 whose two trailing bytes are exactly the running
Fletcher-8 sums (so folding them leaves both sums zero) is nonetheless
dropped: the end-of-message handler is never invoked, because the retained
byte span 97 exceeds the 96-byte staging area. -/
theorem c3_counterexample :
    fletcher8 ([0x01, 0x04, 0x61, 0x00] ++ List.replicate 97 0) = (102, 120) ∧
    (processBytes steadyUblox ubxOversize97).2.filter
      (fun e => isEndMessageEv e || isCallbackEv e) = [] ∧
    (processBytes steadyUblox ubxOversize97).1.ubx.ck_a = 0 ∧
    (processBytes steadyUblox ubxOversize97).1.ubx.ck_b = 0 ∧
    (processBytes steadyUblox ubxOversize97).1.state = GNSS_STATE_START := by
  refine ⟨by decide, by decide, by decide, by decide, by decide⟩


/-- C3, amended: the first trailing checksum byte is XORed into the running
`ck_a`; at the second, the end-of-message handler is invoked exactly when
both sums are zeroed out — equivalently the trailing bytes match the
running sums — AND the retained span fits the 96-byte staging area; every
payload byte is folded into the running Fletcher-8 sums exactly as the
spec's `fletcher8` computes them; and a concrete well-formed frame is
accepted while the same frame with a corrupted trailing byte is dropped
back to Start without handler or callback. -/
theorem c3_fletcher_acceptance :
    (∀ (d : Device) (b : Nat), d.state = GNSS_STATE_UBX_CK_A → b < 256 →
        gnss_receive_step d b =
          ({ d with
              ubx := { d.ubx with ck_a := d.ubx.ck_a ^^^ b },
              state := GNSS_STATE_UBX_CK_B }, [])) ∧
    (∀ (d : Device) (b : Nat), d.state = GNSS_STATE_UBX_CK_B → d.init = GNSS_INIT_DONE →
        (Event.endMessage d.ubx.message ∈ (gnss_receive_step d b).2 ↔
          (d.ubx.ck_a = 0 ∧ d.ubx.ck_b = b % 256 ∧
            d.rx_count - d.rx_offset ≤ GNSS_RX_DATA_SIZE)) ∧
        (gnss_receive_step d b).1.state = GNSS_STATE_START) ∧
    (∀ (d : Device) (P : List Nat),
        d.state = GNSS_STATE_UBX_PAYLOAD → (∀ b ∈ P, b < 256) →
        d.rx_chunk = 65535 → d.rx_count + P.length < 65535 →
        d.rx_count + P.length < d.ubx.length →
        (processBytes d P).1.ubx.ck_a =
          (P.foldl (fun p c =>
            let a := (p.1 + c % 256) % 256
            (a, (p.2 + a) % 256)) (d.ubx.ck_a, d.ubx.ck_b)).1 ∧
        (processBytes d P).1.ubx.ck_b =
          (P.foldl (fun p c =>
            let a := (p.1 + c % 256) % 256
            (a, (p.2 + a) % 256)) (d.ubx.ck_a, d.ubx.ck_b)).2) ∧
    (∀ xs ys : List Nat, fletcher8 (xs ++ ys) =
        ys.foldl (fun p c =>
          let a := (p.1 + c % 256) % 256
          (a, (p.2 + a) % 256)) (fletcher8 xs)) ∧
    (processBytes steadyUblox
        ([0xb5, 0x62, 0x01, 0x04, 0x04, 0x00, 1, 2, 3, 4] ++ [19, 80])).2.filter
      isEndMessageEv = [Event.endMessage 0x0104] ∧
    fletcher8 [0x01, 0x04, 0x04, 0x00, 1, 2, 3, 4] = (19, 80) ∧
    (processBytes steadyUblox
        ([0xb5, 0x62, 0x01, 0x04, 0x04, 0x00, 1, 2, 3, 4] ++ [19, 81])).2.filter
      (fun e => isEndMessageEv e || isCallbackEv e) = [] ∧
    (processBytes steadyUblox
        ([0xb5, 0x62, 0x01, 0x04, 0x04, 0x00, 1, 2, 3, 4] ++ [19, 81])).1.state =
      GNSS_STATE_START := by
  refine ⟨ubx_ck_a_step, ubx_ck_b_accept, ?_, ?_, by decide, by decide, by decide, by decide⟩
  · intro d P hs hb hchunk hcnt hlen
    obtain ⟨r1, r2, -⟩ := ubx_payload_run P d hs hb hchunk hcnt hlen
    exact ⟨r1, r2⟩
  · intro xs ys
    simp [fletcher8, List.foldl_append]

theorem c3_witness :
    (Event.endMessage c3CkbGood.ubx.message ∈ (gnss_receive_step c3CkbGood 80).2 ↔
      (c3CkbGood.ubx.ck_a = 0 ∧ c3CkbGood.ubx.ck_b = 80 % 256 ∧
        c3CkbGood.rx_count - c3CkbGood.rx_offset ≤ GNSS_RX_DATA_SIZE)) ∧
    (gnss_receive_step c3CkbGood 80).1.state = GNSS_STATE_START :=
  c3_fletcher_acceptance.2.1 c3CkbGood 80 (by decide) (by decide)

/-! ## Claim C5 -/

/-- C5, counterexample: a binary frame whose declared payload length (100)
exceeds the 96-byte staging area passes checksum validation at the wire
level (both running sums are zero after folding the trailing bytes), yet
the binary message processor is never invoked — the first 96 payload bytes
are not made available to it; the frame is discarded entirely. -/
theorem c5_counterexample :
    fletcher8 ([0x01, 0x07, 0x64, 0x00] ++ List.replicate 100 1) = (208, 203) ∧
    (processBytes steadyUblox ubxOversize100).2.filter isEndMessageEv = [] ∧
    (processBytes steadyUblox ubxOversize100).2.filter isCallbackEv = [] ∧
    (processBytes steadyUblox ubxOversize100).1.ubx.ck_a = 0 ∧
    (processBytes steadyUblox ubxOversize100).1.ubx.ck_b = 0 ∧
    (processBytes steadyUblox ubxOversize100).1.state = GNSS_STATE_START := by
  refine ⟨by decide, by decide, by decide, by decide, by decide, by decide⟩


/-- C5, amended: a payload byte arriving with the retained span already at
the 96-byte limit is still counted and folded into the Fletcher sums but
stored nowhere and recorded by no event; whether a checksum-valid frame
reaches the end-of-message handler is decided by the retained span
`rx_count - rx_offset` at the final checksum byte, not by the declared
length: a frame whose span exceeds 96 is discarded with no handler and no
event even when both sums validate, a frame whose span fits invokes the
handler, and in particular NAV-SVINFO's chunked consumption advances
`rx_offset` per record, so a declared length of 128 still ends with a
small span and its handler invoked. -/
theorem c5_oversize_wire :
    (∀ (d : Device) (b : Nat),
        d.state = GNSS_STATE_UBX_PAYLOAD → b < 256 →
        d.rx_count + 1 < 65536 → d.rx_count + 1 ≠ d.rx_chunk →
        d.rx_count + 1 ≠ d.ubx.length →
        d.rx_count - d.rx_offset ≥ GNSS_RX_DATA_SIZE →
        gnss_receive_step d b =
          ({ d with
              ubx := { d.ubx with
                ck_a := (d.ubx.ck_a + b) % 256,
                ck_b := (d.ubx.ck_b + (d.ubx.ck_a + b) % 256) % 256 },
              rx_count := d.rx_count + 1 }, [])) ∧
    (∀ (d : Device) (b : Nat),
        d.state = GNSS_STATE_UBX_CK_B → d.init = GNSS_INIT_DONE →
        d.ubx.ck_a = 0 → d.ubx.ck_b = b % 256 →
        GNSS_RX_DATA_SIZE < d.rx_count - d.rx_offset →
        (gnss_receive_step d b).2 = [] ∧
        (gnss_receive_step d b).1.state = GNSS_STATE_START) ∧
    (∀ (d : Device) (b : Nat),
        d.state = GNSS_STATE_UBX_CK_B → d.init = GNSS_INIT_DONE →
        d.ubx.ck_a = 0 → d.ubx.ck_b = b % 256 →
        d.rx_count - d.rx_offset ≤ GNSS_RX_DATA_SIZE →
        Event.endMessage d.ubx.message ∈ (gnss_receive_step d b).2) ∧
    (processBytes steadyUblox svinfoOversize128).2.filter isEndMessageEv =
      [Event.endMessage 0x0130] ∧
    (processBytes steadyUblox svinfoOversize128).1.state = GNSS_STATE_START := by
  refine ⟨?_, ?_, ?_, by decide, by decide⟩
  · intro d b hs hb hcnt hchunk hfin hspan
    have hstep := ubx_payload_step d b hs hb hcnt hchunk hfin
    rw [hstep]
    have hspan' : ¬ d.rx_count - d.rx_offset < GNSS_RX_DATA_SIZE := by omega
    rw [if_neg hspan', if_neg hspan']
  · intro d b hs hinit hcka hckb hspan
    have hnocfg : ¬ (d.init ≠ GNSS_INIT_DONE ∧ d.init = GNSS_INIT_UBX_BAUD_RATE) := by
      rintro ⟨h1, -⟩
      exact h1 hinit
    simp only [gnss_receive_step]
    rw [if_neg (by rintro ⟨h1, -⟩; rw [hs] at h1; revert h1; decide),
      if_neg (by rw [hs]; decide), if_neg (by rw [hs]; decide), if_neg (by rw [hs]; decide),
      if_neg (by rw [hs]; decide), if_neg (by rw [hs]; decide), if_neg (by rw [hs]; decide),
      if_neg (by rw [hs]; decide), if_neg (by rw [hs]; decide), if_neg (by rw [hs]; decide),
      if_neg (by rw [hs]; decide), if_neg (by rw [hs]; decide), if_neg (by rw [hs]; decide),
      if_neg (by rw [hs]; decide), if_pos hs]
    try dsimp only
    rw [if_pos ⟨hcka, by rw [hckb]; simp⟩, if_neg hnocfg,
      if_neg (by omega : ¬ d.rx_count - d.rx_offset ≤ GNSS_RX_DATA_SIZE)]
    exact ⟨rfl, rfl⟩
  · intro d b hs hinit hcka hckb hspan
    exact ((ubx_ck_b_accept d b hs hinit).1).mpr ⟨hcka, hckb, hspan⟩

theorem c5_witness :
    (gnss_receive_step c5CkbOver 203).2 = [] ∧
    (gnss_receive_step c5CkbOver 203).1.state = GNSS_STATE_START :=
  c5_oversize_wire.2.1 c5CkbOver 203 (by decide) (by decide) (by decide) (by decide) (by decide)

/-! ## Claim C7 -/

/-- C7, counterexample: a NAV-SVINFO record whose on-wire satellite id is
the SBAS id 120 is stored with PRN 33 (`svid -= 87`), not with a PRN in the
documented canonical SBAS range 120..158. -/
theorem c7_counterexample :
    ubx_data_uint8 svinfoDevice.rx_data 9 = 120 ∧
    (ubx_parse_message svinfoDevice).satCount = 1 ∧
    ((ubx_parse_message svinfoDevice).satInfo.getD 0 satInfoZero).prn = 33 ∧
    ¬(120 ≤ ((ubx_parse_message svinfoDevice).satInfo.getD 0 satInfoZero).prn ∧
      ((ubx_parse_message svinfoDevice).satInfo.getD 0 satInfoZero).prn ≤ 158) := by
  refine ⟨by decide, by decide, by decide, by decide⟩


/-- C7, amended: the NAV-SVINFO remap keeps GPS 1..32, GLONASS 65..96,
SBAS 152..158, QZSS 193..200 and 255, maps BeiDou 33..64 to 206..237 and
159..163 to 201..205, and maps SBAS 120..151 DOWN to 33..64 (`svid -= 87`)
— not into the documented 120..158 band; any other id yields 0 and the
record is dropped.  SNR, elevation and azimuth are read at payload offsets
12, 13, 14, and when the quality nibble at offset 11 indicates tracking the
`Navigating`/`Correction` flags come from bits 0 and 1 of the byte at
offset 10. -/
theorem c7_svinfo_remap_and_record :
    (∀ s : Nat,
        (1 ≤ s ∧ s ≤ 32 → ubx_svid_remap s = s) ∧
        (33 ≤ s ∧ s ≤ 64 → ubx_svid_remap s = s + 173) ∧
        (65 ≤ s ∧ s ≤ 96 → ubx_svid_remap s = s) ∧
        (120 ≤ s ∧ s ≤ 151 → ubx_svid_remap s = s - 87) ∧
        (152 ≤ s ∧ s ≤ 158 → ubx_svid_remap s = s) ∧
        (159 ≤ s ∧ s ≤ 163 → ubx_svid_remap s = s + 42) ∧
        (193 ≤ s ∧ s ≤ 200 → ubx_svid_remap s = s) ∧
        (s = 255 → ubx_svid_remap s = s) ∧
        (¬(1 ≤ s ∧ s ≤ 96) ∧ ¬(120 ≤ s ∧ s ≤ 163) ∧ ¬(193 ≤ s ∧ s ≤ 200) ∧ s ≠ 255 →
          ubx_svid_remap s = 0)) ∧
    (∀ d : Device, d.ubx.message = 0x0130 →
        ubx_svid_remap (ubx_data_uint8 d.rx_data 9) ≠ 0 →
        d.satCount < GNSS_SATELLITES_COUNT_MAX →
        d.satCount < d.satInfo.length →
        (ubx_parse_message d).satCount = d.satCount + 1 ∧
        ((ubx_parse_message d).satInfo.getD d.satCount satInfoZero).prn =
          ubx_svid_remap (ubx_data_uint8 d.rx_data 9) ∧
        ((ubx_parse_message d).satInfo.getD d.satCount satInfoZero).snr =
          ubx_data_uint8 d.rx_data 12 ∧
        ((ubx_parse_message d).satInfo.getD d.satCount satInfoZero).elevation =
          (if ubx_data_int8 d.rx_data 13 > 0 then (ubx_data_int8 d.rx_data 13).toNat else 0) ∧
        ((ubx_parse_message d).satInfo.getD d.satCount satInfoZero).azimuth =
          (if ubx_data_int8 d.rx_data 13 > 0 then ubx_data_int16 d.rx_data 14 else 0) ∧
        (2 ≤ ubx_data_uint8 d.rx_data 11 &&& 0x0f → ubx_data_uint8 d.rx_data 11 &&& 0x0f ≤ 7 →
          ((ubx_parse_message d).satInfo.getD d.satCount satInfoZero).state =
            GNSS_SATELLITES_STATE_TRACKING |||
              (if ubx_data_uint8 d.rx_data 10 &&& 0x01 ≠ 0 then
                GNSS_SATELLITES_STATE_NAVIGATING else 0) |||
              (if ubx_data_uint8 d.rx_data 10 &&& 0x02 ≠ 0 then
                GNSS_SATELLITES_STATE_CORRECTION else 0))) := by
  constructor
  · intro s
    refine ⟨?_, ?_, ?_, ?_, ?_, ?_, ?_, ?_, ?_⟩ <;>
      (intro hr; unfold ubx_svid_remap; split_ifs <;> omega)
  · intro d hmsg hsv hcnt hlen
    have hget : (ubx_parse_message d).satInfo.getD d.satCount satInfoZero =
        ⟨ubx_svid_remap (ubx_data_uint8 d.rx_data 9),
          (let state :=
            if ubx_data_uint8 d.rx_data 11 &&& 0x0f ≤ 1 then GNSS_SATELLITES_STATE_SEARCHING
            else if ubx_data_uint8 d.rx_data 11 &&& 0x0f ≤ 7 then GNSS_SATELLITES_STATE_TRACKING
            else GNSS_SATELLITES_STATE_SEARCHING
           if state &&& GNSS_SATELLITES_STATE_TRACKING ≠ 0 then
             let state := if ubx_data_uint8 d.rx_data 10 &&& 0x01 ≠ 0 then
               state ||| GNSS_SATELLITES_STATE_NAVIGATING else state
             if ubx_data_uint8 d.rx_data 10 &&& 0x02 ≠ 0 then
               state ||| GNSS_SATELLITES_STATE_CORRECTION else state
           else state),
          ubx_data_uint8 d.rx_data 12,
          (if ubx_data_int8 d.rx_data 13 > 0 then (ubx_data_int8 d.rx_data 13).toNat else 0),
          (if ubx_data_int8 d.rx_data 13 > 0 then ubx_data_int16 d.rx_data 14 else 0)⟩ := by
      unfold ubx_parse_message
      rw [if_pos hmsg]
      dsimp only
      rw [if_pos ⟨hsv, hcnt⟩]
      dsimp only [setSatCur]
      rw [List.getD_eq_getElem?_getD, List.getElem?_set_eq_of_lt _ hlen]
      rfl
    have hcount : (ubx_parse_message d).satCount = d.satCount + 1 := by
      unfold ubx_parse_message
      rw [if_pos hmsg]
      dsimp only
      rw [if_pos ⟨hsv, hcnt⟩]
      rfl
    refine ⟨hcount, ?_, ?_, ?_, ?_, ?_⟩
    · rw [hget]
    · rw [hget]
    · rw [hget]
    · rw [hget]
    · intro hq1 hq2
      rw [hget]
      dsimp only
      rw [if_neg (by omega : ¬ ubx_data_uint8 d.rx_data 11 &&& 0x0f ≤ 1), if_pos hq2]
      rw [if_pos (by decide : (GNSS_SATELLITES_STATE_TRACKING &&&
        GNSS_SATELLITES_STATE_TRACKING ≠ 0))]
      by_cases hb0 : ubx_data_uint8 d.rx_data 10 &&& 0x01 ≠ 0
      · rw [if_pos hb0, if_pos hb0]
        by_cases hb1 : ubx_data_uint8 d.rx_data 10 &&& 0x02 ≠ 0
        · rw [if_pos hb1, if_pos hb1]
        · rw [if_neg hb1, if_neg hb1]
          decide
      · rw [if_neg hb0, if_neg hb0]
        by_cases hb1 : ubx_data_uint8 d.rx_data 10 &&& 0x02 ≠ 0
        · rw [if_pos hb1, if_pos hb1]
          decide
        · rw [if_neg hb1, if_neg hb1]
          decide

theorem c7_witness :
    ubx_svid_remap 120 = 120 - 87 ∧
    ((ubx_parse_message svinfoDevice).satInfo.getD svinfoDevice.satCount satInfoZero).prn =
      ubx_svid_remap (ubx_data_uint8 svinfoDevice.rx_data 9) := by
  constructor
  · exact (c7_svinfo_remap_and_record.1 120).2.2.2.1 (by decide)
  · exact (c7_svinfo_remap_and_record.2 svinfoDevice (by decide) (by decide) (by decide)
      (by decide)).2.1

/-! ## Claim C8 -/

/-- C8, counterexample: a full NMEA cycle whose GSV sentence reports the
on-wire satellite id 97 publishes a satellites snapshot containing PRN 97,
which lies in none of the documented canonical constellation ranges — the
NMEA GSV path stores the on-wire id without range validation. -/
theorem c8_counterexample :
    Event.satellitesCb 1 [⟨97, 2, 30, 45, 123⟩] ∈ (processBytes steadyNmea demoCycle).2 ∧
    canonicalPrn 97 = false := by
  refine ⟨by decide, by decide⟩


/-- C8, amended: every satellites snapshot handed to the host callback, on
any byte stream, has count at most 32 and at most 32 entries; in the binary
path every stored PRN comes from the remap and lies in
1..96 ∪ 152..158 ∪ 193..237 ∪ {255} — which is NOT contained in the
documented canonical ranges (SBAS 120..151 lands in 33..64), and the NMEA
GSV path stores on-wire ids unvalidated. -/
theorem c8_count_and_prn :
    (∀ (d : Device) (bs : List Nat) (c : Nat) (s : List SatInfo),
        Event.satellitesCb c s ∈ (processBytes d bs).2 →
        c ≤ GNSS_SATELLITES_COUNT_MAX ∧ s.length ≤ GNSS_SATELLITES_COUNT_MAX) ∧
    (∀ svid : Nat, ubx_svid_remap svid = 0 ∨
        (1 ≤ ubx_svid_remap svid ∧ ubx_svid_remap svid ≤ 96) ∨
        (152 ≤ ubx_svid_remap svid ∧ ubx_svid_remap svid ≤ 158) ∨
        (193 ≤ ubx_svid_remap svid ∧ ubx_svid_remap svid ≤ 237) ∨
        ubx_svid_remap svid = 255) ∧
    (∀ (d : Device) (i : Nat),
        ((ubx_parse_message d).satInfo.getD i satInfoZero).prn =
          (d.satInfo.getD i satInfoZero).prn ∨
        (((ubx_parse_message d).satInfo.getD i satInfoZero).prn =
            ubx_svid_remap (ubx_data_uint8 d.rx_data 9) ∧
          ubx_svid_remap (ubx_data_uint8 d.rx_data 9) ≠ 0)) := by
  refine ⟨fun d bs => processBytes_satcb bs d, ?_, ?_⟩
  · intro svid
    unfold ubx_svid_remap
    split_ifs <;> omega
  · intro d i
    unfold ubx_parse_message
    by_cases hmsg : d.ubx.message = 0x0130
    · rw [if_pos hmsg]
      dsimp only
      by_cases hcond : ubx_svid_remap (ubx_data_uint8 d.rx_data 9) ≠ 0 ∧
          d.satCount < GNSS_SATELLITES_COUNT_MAX
      · rw [if_pos hcond]
        dsimp only [setSatCur]
        by_cases hi : i = d.satCount
        · subst hi
          by_cases hlen : d.satCount < d.satInfo.length
          · right
            refine ⟨?_, hcond.1⟩
            rw [List.getD_eq_getElem?_getD, List.getElem?_set_eq_of_lt _ hlen]
            rfl
          · left
            rw [List.getD_eq_getElem?_getD, List.getD_eq_getElem?_getD,
              List.getElem?_eq_none (by rw [List.length_set]; omega),
              List.getElem?_eq_none (by omega)]
        · left
          rw [List.getD_eq_getElem?_getD, List.getD_eq_getElem?_getD,
            List.getElem?_set_ne (fun hez => hi hez.symm)]
      · rw [if_neg hcond]
        left
        rfl
    · rw [if_neg hmsg]
      left
      rfl

theorem c8_witness :
    1 ≤ GNSS_SATELLITES_COUNT_MAX ∧
      ([⟨97, 2, 30, 45, 123⟩] : List SatInfo).length ≤ GNSS_SATELLITES_COUNT_MAX :=
  c8_count_and_prn.1 steadyNmea demoCycle 1 [⟨97, 2, 30, 45, 123⟩] (by decide)

/-! ## Claim C9 -/

/-- C9, counterexample: the spec's RMC sentence sets the working location
record's speed to 11524 mm/s, not 1152 — the speed field `022.4` is parsed
at fixed-point scale 3 (22400), and `(22400 * 1852 + 1800) / 3600 = 11524`.
The sentence is checksum-valid (`*6A` is the payload XOR) and reaches the
sentence finalizer, yet alone it fires no callback: it lacks the RMC mode
field, so the RMC end bookkeeping never runs for it. -/
theorem c9_counterexample :
    (processBytes steadyNmea demoRmc).1.location.speed = 11524 ∧
    (processBytes steadyNmea demoRmc).1.location.speed ≠ 1152 ∧
    (processBytes steadyNmea demoRmc).2.filter isCallbackEv = [] ∧
    (processBytes steadyNmea demoRmc).2.filter isEndSentenceEv = [Event.endSentence] := by
  refine ⟨by decide, by decide, by decide, by decide⟩


/-- C9, amended: the RMC speed field is parsed as fixed-point with scale 3
(not 2), and the published speed is `(value * 1852 + 1800) / 3600` under
32-bit wrap-around; for the spec's field `022.4` the parsed value is 22400
and the delivered speed is 11524 mm/s, not 1152. -/
theorem c9_speed_formula :
    (∀ (d : Device) (data : List Nat) (v : Nat),
        d.nmea.sequence = NMEA_FIELD_SEQUENCE_RMC_SPEED → data ≠ [] →
        nmea_parse_fixed data 3 = some v →
        (nmea_parse_sentence d data).location.speed =
          ((v * 1852 + 1800) % 4294967296) / 3600) ∧
    nmea_parse_fixed (strBytes "022.4") 3 = some 22400 ∧
    ((processBytes steadyNmea demoCycle).2.filter isLocationEv).all
        (fun e => match e with
          | Event.locationCb loc => loc.speed == 11524
          | _ => false) = true ∧
    (processBytes steadyNmea demoCycle).2.filter isLocationEv ≠ [] := by
  refine ⟨?_, by decide, by decide, by decide⟩
  intro d data v hs hdata hv
  simp [nmea_parse_sentence, hs, hdata, hv,
    NMEA_FIELD_SEQUENCE_START, NMEA_FIELD_SEQUENCE_SKIP, NMEA_FIELD_SEQUENCE_GGA_TIME,
    NMEA_FIELD_SEQUENCE_GGA_LATITUDE, NMEA_FIELD_SEQUENCE_GGA_LATITUDE_NS,
    NMEA_FIELD_SEQUENCE_GGA_LONGITUDE, NMEA_FIELD_SEQUENCE_GGA_LONGITUDE_EW,
    NMEA_FIELD_SEQUENCE_GGA_QUALITY, NMEA_FIELD_SEQUENCE_GGA_NUMSV,
    NMEA_FIELD_SEQUENCE_GGA_HDOP, NMEA_FIELD_SEQUENCE_GGA_ALTITUDE,
    NMEA_FIELD_SEQUENCE_GGA_ALTITUDE_UNIT, NMEA_FIELD_SEQUENCE_GGA_SEPARATION,
    NMEA_FIELD_SEQUENCE_GGA_SEPARATION_UNIT, NMEA_FIELD_SEQUENCE_GGA_DIFFERENTIAL_AGE,
    NMEA_FIELD_SEQUENCE_GGA_DIFFERENTIAL_STATION, NMEA_FIELD_SEQUENCE_GSA_OPERATION,
    NMEA_FIELD_SEQUENCE_GSA_NAVIGATION, NMEA_FIELD_SEQUENCE_GSA_SV_USED_PRN_1,
    NMEA_FIELD_SEQUENCE_GSA_SV_USED_PRN_12, NMEA_FIELD_SEQUENCE_GSA_PDOP,
    NMEA_FIELD_SEQUENCE_GSA_HDOP, NMEA_FIELD_SEQUENCE_GSA_VDOP,
    NMEA_FIELD_SEQUENCE_GST_TIME, NMEA_FIELD_SEQUENCE_GST_RANGE,
    NMEA_FIELD_SEQUENCE_GST_STDDEV_MAJOR, NMEA_FIELD_SEQUENCE_GST_STDDEV_MINOR,
    NMEA_FIELD_SEQUENCE_GST_ORIENTATION, NMEA_FIELD_SEQUENCE_GST_STDDEV_LATITUDE,
    NMEA_FIELD_SEQUENCE_GST_STDDEV_LONGITUDE, NMEA_FIELD_SEQUENCE_GST_STDDEV_ALTITUDE,
    NMEA_FIELD_SEQUENCE_GSV_SENTENCES, NMEA_FIELD_SEQUENCE_GSV_CURRENT,
    NMEA_FIELD_SEQUENCE_GSV_SV_IN_VIEW_COUNT, NMEA_FIELD_SEQUENCE_GSV_SV_IN_VIEW_ID,
    NMEA_FIELD_SEQUENCE_GSV_SV_IN_VIEW_ELEV, NMEA_FIELD_SEQUENCE_GSV_SV_IN_VIEW_AZIM,
    NMEA_FIELD_SEQUENCE_GSV_SV_IN_VIEW_SNR, NMEA_FIELD_SEQUENCE_RMC_TIME,
    NMEA_FIELD_SEQUENCE_RMC_STATUS, NMEA_FIELD_SEQUENCE_RMC_LATITUDE,
    NMEA_FIELD_SEQUENCE_RMC_LATITUDE_NS, NMEA_FIELD_SEQUENCE_RMC_LONGITUDE,
    NMEA_FIELD_SEQUENCE_RMC_LONGITUDE_EW, NMEA_FIELD_SEQUENCE_RMC_SPEED,
    NMEA_FIELD_SEQUENCE_RMC_COURSE, NMEA_FIELD_SEQUENCE_RMC_DATE,
    NMEA_FIELD_SEQUENCE_RMC_VARIATION, NMEA_FIELD_SEQUENCE_RMC_VARIATION_UNIT,
    NMEA_FIELD_SEQUENCE_RMC_MODE, NMEA_FIELD_SEQUENCE_GGA_END,
    NMEA_FIELD_SEQUENCE_GSA_END, NMEA_FIELD_SEQUENCE_GST_END,
    NMEA_FIELD_SEQUENCE_GSV_END, NMEA_FIELD_SEQUENCE_RMC_END,
    NMEA_FIELD_SEQUENCE_PMTK001_COMMAND, NMEA_FIELD_SEQUENCE_PMTK001_STATUS,
    NMEA_FIELD_SEQUENCE_PMTK001_END]

theorem c9_witness :
    (nmea_parse_sentence rmcSpeedDevice (strBytes "022.4")).location.speed =
      ((22400 * 1852 + 1800) % 4294967296) / 3600 :=
  c9_speed_formula.1 rmcSpeedDevice (strBytes "022.4") 22400 (by decide) (by decide) (by decide)

/-! ## Claim C10 -/

/-- C10: the claim that every store into the 96-byte `rx_data` staging
buffer uses an index strictly below 96 fails on the `'*'` delimiter branch:
after a `$` and a comma-free field of 96 printable bytes, the `'*'` byte
writes the NUL terminator at index 96 — one past the end of the buffer
(the `','` and payload-byte branches check the bound first; the `'*'`
branch does not). -/
theorem c10_star_nul_store_oob :
    Event.storeRx 96 0 ∈
      (processBytes steadyNmea (36 :: (List.replicate 96 65 ++ [42]))).2 ∧
    ¬ 96 < GNSS_RX_DATA_SIZE := by
  refine ⟨by decide, by decide⟩


/-! ## Claim C1 -/

/-- C1: no host callback fires for a frame that fails checksum validation.
A mismatched first or second NMEA checksum character, or a UBX trailing
checksum byte pair that does not zero out the running Fletcher sums,
discards the frame back to `Start` with an empty event trace; and a
location/satellites callback event can occur in a step only at the LF of a
checksum-valid NMEA sentence or at the matching second checksum byte of a
UBX frame. -/
theorem c1_bad_checksum_no_callback :
    (∀ d : Device, ∀ b : Nat, d.state = GNSS_STATE_NMEA_CHECKSUM_1 → b % 256 ≠ 36 →
      b % 256 ≠ nmea_hex_ascii.getD (d.checksum >>> 4) 0 →
      gnss_receive_step d b = ({ d with state := GNSS_STATE_START }, [])) ∧
    (∀ d : Device, ∀ b : Nat, d.state = GNSS_STATE_NMEA_CHECKSUM_2 → b % 256 ≠ 36 →
      b % 256 ≠ nmea_hex_ascii.getD (d.checksum &&& 0x0f) 0 →
      gnss_receive_step d b = ({ d with state := GNSS_STATE_START }, [])) ∧
    (∀ d : Device, ∀ b : Nat, d.state = GNSS_STATE_UBX_CK_B →
      ¬ (d.ubx.ck_a = 0 ∧ d.ubx.ck_b = b % 256) →
      gnss_receive_step d b =
        ({ d with
            ubx := { d.ubx with ck_b := d.ubx.ck_b ^^^ b % 256 },
            state := GNSS_STATE_START }, [])) ∧
    (∀ d : Device, ∀ b : Nat, ∀ e : Event, e ∈ (gnss_receive_step d b).2 →
      isCallbackEv e = true →
      (d.state = GNSS_STATE_NMEA_END_LF ∧ b % 256 = 10) ∨
      (d.state = GNSS_STATE_UBX_CK_B ∧ d.ubx.ck_a = 0 ∧ d.ubx.ck_b = b % 256)) := by
  refine ⟨?_, ?_, ?_, ?_⟩
  · intro d b hs hc36 hne
    rw [List.getD_eq_getElem?_getD] at hne
    simp [gnss_receive_step, hs, hc36, hne, List.getD_eq_getElem?_getD, GNSS_STATE_START, GNSS_STATE_NMEA_PAYLOAD, GNSS_STATE_NMEA_CHECKSUM_1, GNSS_STATE_NMEA_CHECKSUM_2, GNSS_STATE_NMEA_END_CR, GNSS_STATE_NMEA_END_LF, GNSS_STATE_UBX_SYNC_2, GNSS_STATE_UBX_MESSAGE_1, GNSS_STATE_UBX_MESSAGE_2, GNSS_STATE_UBX_LENGTH_1, GNSS_STATE_UBX_LENGTH_2, GNSS_STATE_UBX_PAYLOAD, GNSS_STATE_UBX_CK_A, GNSS_STATE_UBX_CK_B]
  · intro d b hs hc36 hne
    rw [List.getD_eq_getElem?_getD] at hne
    simp [gnss_receive_step, hs, hc36, hne, List.getD_eq_getElem?_getD, GNSS_STATE_START, GNSS_STATE_NMEA_PAYLOAD, GNSS_STATE_NMEA_CHECKSUM_1, GNSS_STATE_NMEA_CHECKSUM_2, GNSS_STATE_NMEA_END_CR, GNSS_STATE_NMEA_END_LF, GNSS_STATE_UBX_SYNC_2, GNSS_STATE_UBX_MESSAGE_1, GNSS_STATE_UBX_MESSAGE_2, GNSS_STATE_UBX_LENGTH_1, GNSS_STATE_UBX_LENGTH_2, GNSS_STATE_UBX_PAYLOAD, GNSS_STATE_UBX_CK_A, GNSS_STATE_UBX_CK_B]
  · intro d b hs hne
    simp [gnss_receive_step, hs, hne, Nat.xor_eq_zero, GNSS_STATE_START, GNSS_STATE_NMEA_PAYLOAD, GNSS_STATE_NMEA_CHECKSUM_1, GNSS_STATE_NMEA_CHECKSUM_2, GNSS_STATE_NMEA_END_CR, GNSS_STATE_NMEA_END_LF, GNSS_STATE_UBX_SYNC_2, GNSS_STATE_UBX_MESSAGE_1, GNSS_STATE_UBX_MESSAGE_2, GNSS_STATE_UBX_LENGTH_1, GNSS_STATE_UBX_LENGTH_2, GNSS_STATE_UBX_PAYLOAD, GNSS_STATE_UBX_CK_A, GNSS_STATE_UBX_CK_B]
  · intro d b e he hcb
    have hsr : ∀ i v, e ≠ Event.storeRx i v := by
      rintro i v rfl
      simp [isCallbackEv, isLocationEv, isSatellitesEv] at hcb
    simp only [gnss_receive_step] at he
    by_cases hq : d.state ≤ GNSS_STATE_NMEA_END_LF ∧ b % 256 = 36
    · rw [if_pos hq] at he
      simp at he
    rw [if_neg hq] at he
    by_cases h0 : d.state = GNSS_STATE_START
    · rw [if_pos h0] at he
      simp at he
    rw [if_neg h0] at he
    by_cases h1 : d.state = GNSS_STATE_NMEA_PAYLOAD
    · rw [if_pos h1] at he
      repeat' split at he
      all_goals simp [hsr] at he
    rw [if_neg h1] at he
    by_cases h2 : d.state = GNSS_STATE_NMEA_CHECKSUM_1
    · rw [if_pos h2] at he
      repeat' split at he
      all_goals simp [hsr] at he
    rw [if_neg h2] at he
    by_cases h3 : d.state = GNSS_STATE_NMEA_CHECKSUM_2
    · rw [if_pos h3] at he
      repeat' split at he
      all_goals simp [hsr] at he
    rw [if_neg h3] at he
    by_cases h4 : d.state = GNSS_STATE_NMEA_END_CR
    · rw [if_pos h4] at he
      repeat' split at he
      all_goals simp [hsr] at he
    rw [if_neg h4] at he
    by_cases h5 : d.state = GNSS_STATE_NMEA_END_LF
    · by_cases hc : b % 256 = 10
      · exact Or.inl ⟨h5, hc⟩
      · rw [if_pos h5, if_neg hc] at he
        simp [hsr] at he
    rw [if_neg h5] at he
    by_cases h6 : d.state = GNSS_STATE_UBX_SYNC_2
    · rw [if_pos h6] at he
      repeat' split at he
      all_goals simp [hsr] at he
    rw [if_neg h6] at he
    by_cases h7 : d.state = GNSS_STATE_UBX_MESSAGE_1
    · rw [if_pos h7] at he
      simp at he
    rw [if_neg h7] at he
    by_cases h8 : d.state = GNSS_STATE_UBX_MESSAGE_2
    · rw [if_pos h8] at he
      simp at he
    rw [if_neg h8] at he
    by_cases h9 : d.state = GNSS_STATE_UBX_LENGTH_1
    · rw [if_pos h9] at he
      simp at he
    rw [if_neg h9] at he
    by_cases h10 : d.state = GNSS_STATE_UBX_LENGTH_2
    · rw [if_pos h10] at he
      repeat' split at he
      all_goals simp [hsr] at he
    rw [if_neg h10] at he
    by_cases h11 : d.state = GNSS_STATE_UBX_PAYLOAD
    · rw [if_pos h11] at he
      repeat' split at he
      all_goals simp [hsr] at he
    rw [if_neg h11] at he
    by_cases h12 : d.state = GNSS_STATE_UBX_CK_A
    · rw [if_pos h12] at he
      simp at he
    rw [if_neg h12] at he
    by_cases h13 : d.state = GNSS_STATE_UBX_CK_B
    · by_cases hck : d.ubx.ck_a = 0 ∧ d.ubx.ck_b ^^^ b % 256 = 0
      · exact Or.inr ⟨h13, hck.1, (Nat.xor_eq_zero).mp hck.2⟩
      · rw [if_pos h13] at he
        try dsimp only at he
        rw [if_neg hck] at he
        simp [hsr] at he
    rw [if_neg h13] at he
    simp at he

theorem c1_witness :
    gnss_receive_step c1BadNmea 88 = ({ c1BadNmea with state := GNSS_STATE_START }, []) ∧
    gnss_receive_step c1BadUbx 9 =
      ({ c1BadUbx with
          ubx := { c1BadUbx.ubx with ck_b := 7 ^^^ 9 },
          state := GNSS_STATE_START }, []) := by
  constructor
  · exact c1_bad_checksum_no_callback.1 c1BadNmea 88 rfl (by decide) (by decide)
  · exact c1_bad_checksum_no_callback.2.2.1 c1BadUbx 9 rfl (by decide)

/-! ## Claim C4 -/

/-- C4: the `SOLUTION` interlock. In both the NMEA and UBX paths the
satellite table is published only when the `SOLUTION` bit is set in
`seen`, the bit becomes set only by the location-publish phase (which then
emits a location callback), the per-sentence/per-message switch never sets
it, and consequently a satellites callback within one finalizer invocation
implies a location callback in the same invocation or a `SOLUTION` bit
set by an earlier cycle step. -/
theorem c4_solution_interlock :
    (∀ d : Device, (nmea_publish_satellites d).2 ≠ [] → hasSolution d.seen) ∧
    (∀ d : Device, ¬ hasSolution d.seen → hasSolution (nmea_publish_location d).1.seen →
       (nmea_publish_location d).2.filter isLocationEv ≠ []) ∧
    (∀ d : Device, ¬ hasSolution d.seen → ¬ hasSolution (nmea_end_switch d).1.seen) ∧
    (∀ d : Device, (nmea_end_sentence d).2.filter isSatellitesEv ≠ [] →
       (nmea_end_sentence d).2.filter isLocationEv ≠ [] ∨ hasSolution d.seen) ∧
    (∀ d : Device, (ubx_publish_satellites d).2 ≠ [] → hasSolution d.seen) ∧
    (∀ d : Device, ¬ hasSolution d.seen → hasSolution (ubx_publish_location d).1.seen →
       (ubx_publish_location d).2.filter isLocationEv ≠ []) ∧
    (∀ d : Device, ¬ hasSolution d.seen → ¬ hasSolution (ubx_end_switch d).1.seen) ∧
    (∀ d : Device, (ubx_end_message d).2.filter isSatellitesEv ≠ [] →
       (ubx_end_message d).2.filter isLocationEv ≠ [] ∨ hasSolution d.seen) := by
  refine ⟨nmea_publish_satellites_sol, ?_, nmea_end_switch_sol, nmea_end_sentence_interlock,
    ubx_publish_satellites_sol, ?_, ubx_end_switch_sol, ubx_end_message_interlock⟩
  · intro d hpre hpost
    rcases nmea_publish_location_cases d with heq | ⟨⟨loc, hl⟩, _⟩
    · rw [heq] at hpost
      exact absurd hpost hpre
    · rw [hl]
      simp [isLocationEv]
  · intro d hpre hpost
    rcases ubx_publish_location_cases d with heq | ⟨⟨loc, hl⟩, _⟩
    · rw [heq] at hpost
      exact absurd hpost hpre
    · rw [hl]
      simp [isLocationEv]

theorem c4_witness :
    ((nmea_end_sentence demoPre).2.filter isLocationEv ≠ [] ∨ hasSolution demoPre.seen) ∧
    hasSolution ubxSatDevice.seen := by
  constructor
  · exact c4_solution_interlock.2.2.2.1 demoPre (by decide)
  · exact c4_solution_interlock.2.2.2.2.1 ubxSatDevice (by decide)

/-! ## Claim C6 -/

/-- C6: the latitude parser accepts exactly the fields `DDMM.MMMM...` with
two leading digits forming a degree value at most 89 and a minutes part
parsed at scale 7 below 600000000, returning
`degrees * 10^7 + (minutes + 30) / 60`; degrees 89 is accepted, 90
rejected. -/
theorem c6_latitude_bounds :
    (∀ data : List Nat,
      (nmea_parse_latitude data).isSome = true ↔
        ∃ c0 c1 rest, data = c0 :: c1 :: rest ∧ isDigit c0 = true ∧ isDigit c1 = true ∧
          (c0 - 48) * 10 + (c1 - 48) ≤ 89 ∧ rest ≠ [] ∧
          ∃ m, nmea_parse_fixed rest 7 = some m ∧ m < 600000000) ∧
    (∀ (c0 c1 : Nat) (rest : List Nat) (m : Nat),
      isDigit c0 = true → isDigit c1 = true →
      (c0 - 48) * 10 + (c1 - 48) ≤ 89 → rest ≠ [] →
      nmea_parse_fixed rest 7 = some m → m < 600000000 →
      nmea_parse_latitude (c0 :: c1 :: rest) =
        some (((c0 - 48) * 10 + (c1 - 48)) * 10000000 + (m + 30) / 60)) ∧
    (nmea_parse_latitude (strBytes "8907.038")).isSome = true ∧
    nmea_parse_latitude (strBytes "9007.038") = none := by
  have key : ∀ (c0 c1 : Nat) (rest : List Nat) (m : Nat),
      isDigit c0 = true → isDigit c1 = true →
      (c0 - 48) * 10 + (c1 - 48) ≤ 89 → rest ≠ [] →
      nmea_parse_fixed rest 7 = some m → m < 600000000 →
      nmea_parse_latitude (c0 :: c1 :: rest) =
        some (((c0 - 48) * 10 + (c1 - 48)) * 10000000 + (m + 30) / 60) := by
    intro c0 c1 rest m h0 h1 hdeg hrest hm hlt
    have hdeg' : (c0 - 48) * 10 + (c1 - 48) < 90 := by omega
    have hbound : ((c0 - 48) * 10 + (c1 - 48)) * 10000000 + (m + 30) / 60 < 4294967296 := by
      have h60 : (m + 30) / 60 ≤ 10000000 := by omega
      nlinarith
    simp only [nmea_parse_latitude]
    rw [if_pos ⟨h0, h1⟩, if_pos ⟨hdeg', hrest⟩, hm]
    simp only [if_pos hlt, Nat.mod_eq_of_lt hbound]
  refine ⟨?_, key, by decide, by decide⟩
  intro data
  constructor
  · intro h
    match data with
    | [] => simp [nmea_parse_latitude] at h
    | [c0] => simp [nmea_parse_latitude] at h
    | c0 :: c1 :: rest =>
      refine ⟨c0, c1, rest, rfl, ?_⟩
      simp only [nmea_parse_latitude] at h
      split_ifs at h with h1 h2
      · rcases hm : nmea_parse_fixed rest 7 with _ | m
        · rw [hm] at h; simp at h
        · by_cases h3 : m < 600000000
          · exact ⟨h1.1, h1.2, by omega, h2.2, m, rfl, h3⟩
          · rw [hm] at h; simp [h3] at h
      · simp at h
      · simp at h
  · rintro ⟨c0, c1, rest, rfl, h0, h1, hdeg, hrest, m, hm, hlt⟩
    rw [key c0 c1 rest m h0 h1 hdeg hrest hm hlt]
    rfl

theorem c6_witness :
    nmea_parse_latitude (52 :: 56 :: strBytes "07.038") =
      some (((52 - 48) * 10 + (56 - 48)) * 10000000 + (70380000 + 30) / 60) :=
  c6_latitude_bounds.2.1 52 56 (strBytes "07.038") 70380000 (by decide) (by decide)
    (by decide) (by decide) (by decide) (by decide)

end GnssCore
